import Mathlib

/-!
Verification of the aws-eagle-eye repository core engines.

Two engines are embedded here, translated from the Python sources:

* `FlowLog`: the VPC flow-log aggregation engine of
  `src/terraform/lambda.py` (`process_vpc_flow_log_file`).
* `Classifier`: the ENI resource-classification engine of
  `src/app/gather.py` (`identify_resource`,
  `parse_resource_from_description`, `create_virtual_appliances`).

Machine integers are modelled as `Int`/`Nat` (Python integers are unbounded,
so no wrap-around modelling is needed).  Fallible parsing returns `Option`.
-/

namespace EagleEye

/-! ## Python builtin models

Helpers modelling the Python builtins used by both engines. -/

/-- The Python `str.strip()` / `str.split()` whitespace characters
(ASCII part, which is all that occurs in the inputs). -/
def isPySpace (c : Char) : Bool :=
  c = ' ' ∨ c = '\t' ∨ c = '
' ∨ c = '\r' ∨ c = '\x0b' ∨ c = '\x0c'

/-- Models Python `s.strip()`: drops leading and trailing whitespace.
(Defined structurally on the character list so that it evaluates inside
the kernel; the core `String.trim` does not reduce definitionally.) -/
def pyStrip (s : String) : String :=
  ⟨((s.data.dropWhile isPySpace).reverse.dropWhile isPySpace).reverse⟩

/-- Character-list core of Python `s.split(sep)` for a single-character
separator: splits at every occurrence, keeping empty parts. -/
def pySplitCS (sep : Char) : List Char → List (List Char)
  | [] => [[]]
  | c :: rest =>
    if c = sep then [] :: pySplitCS sep rest
    else match pySplitCS sep rest with
      | g :: gs => (c :: g) :: gs
      | [] => [[c]]

/-- Models Python `s.split(sep)` for a single-character separator. -/
def pySplit (sep : Char) (s : String) : List String :=
  (pySplitCS sep s.data).map String.mk

/-- Models Python `s.startswith(pre)`. -/
def pyStartsWith (s pre : String) : Bool := pre.data.isPrefixOf s.data

/-- Models Python `int(s)` on the strings that occur in flow logs:
optional surrounding whitespace, an optional sign, then one or more
decimal digits.  Returns `none` where Python raises `ValueError`. -/
def pyInt (s : String) : Option Int :=
  let cs := (pyStrip s).data
  match cs with
  | [] => none
  | c :: rest =>
    let digits := if c = '-' ∨ c = '+' then rest else cs
    let sign : Int := if c = '-' then -1 else 1
    if digits = [] then none
    else if digits.all (fun d => d.isDigit) then
      some (sign * (digits.foldl (fun a d => a * 10 + (d.toNat - 48)) 0 : Nat))
    else none

/-- Models the Python `in` operator on strings: `needle` occurs as a
contiguous substring of `hay`. -/
def strContainsCS : List Char → List Char → Bool
  | [], needle => needle.isEmpty
  | hay@(_ :: rest), needle => needle.isPrefixOf hay || strContainsCS rest needle

/-- String version of `strContainsCS`: models Python `needle in hay`. -/
def strContains (hay needle : String) : Bool :=
  strContainsCS hay.toList needle.toList

/-- Models Python dict lookup `d.get(k)` on an association list that
represents a dict (unique keys, insertion order). -/
def dictGet : List (String × String) → String → Option String
  | [], _ => none
  | (k', v) :: rest, k => if k' = k then some v else dictGet rest k

/-- Models Python `d.get(k, default)`. -/
def dictGetD (m : List (String × String)) (k d : String) : String :=
  (dictGet m k).getD d

/-- Models Python `k in d`. -/
def dictHasKey (m : List (String × String)) (k : String) : Bool :=
  (dictGet m k).isSome

/-- Models insertion `d[k] = v` into a dict represented as an association
list: replaces the value in place if the key exists, appends otherwise. -/
def dictInsert : List (String × String) → String → String → List (String × String)
  | [], k, v => [(k, v)]
  | (k', v') :: rest, k, v =>
    if k' = k then (k, v) :: rest else (k', v') :: dictInsert rest k v

/-- Models the dict comprehension `{t['Key']: t['Value'] for t in tags}`:
later duplicates overwrite earlier values, first-occurrence key order. -/
def dictOfPairs (l : List (String × String)) : List (String × String) :=
  l.foldl (fun m p => dictInsert m p.1 p.2) []

/-- Models Python truthiness of an optional string (`if s:`):
false for `None` and for the empty string. -/
def pyTruthy : Option String → Bool
  | none => false
  | some s => !s.isEmpty

/-- Models Python `s.lower()` (ASCII case folding, which covers the
inputs involved). -/
def pyLower (s : String) : String := ⟨s.data.map Char.toLower⟩

/-- Models Python slicing `s[:n]`. -/
def pySlice (s : String) (n : Nat) : String := ⟨s.data.take n⟩

namespace Decimal

/-- Specification of base-10 rendering, most significant digit first;
proved below to agree with the core `Nat.toDigits 10` that underlies
`toString`, which models Python `str(int)`. -/
def natDec (n : Nat) : List Char :=
  if _h : n < 10 then [Nat.digitChar n]
  else natDec (n / 10) ++ [Nat.digitChar (n % 10)]
decreasing_by exact Nat.div_lt_self (by omega) (by omega)

/-- Numeric value of a digit string, used to invert `natDec`. -/
def decVal (cs : List Char) : Nat :=
  cs.foldl (fun a c => a * 10 + (c.toNat - 48)) 0

end Decimal

namespace FlowLog

/-! ## Flow-log aggregation engine

Translation of the parsing/aggregation loop of
`process_vpc_flow_log_file` (src/terraform/lambda.py, lines 126-256).
The S3 download/decompression and the JSON envelope unwrapping are
external to the engine: the functions below process the sequence of
(already unwrapped) log lines, exactly as the loop body does from the
`actual_log_line` variable on.  For a plain (non-JSON-wrapped) line the
loop's two emptiness checks coincide, which is the case modelled here. -/

/-- One per-connection summary, as accumulated by the loop
(src/terraform/lambda.py lines 196-224). -/
structure Summary where
  sourceIp : String
  destinationIp : String
  sourcePort : Int
  destinationPort : Int
  protocol : String
  totalBytes : Int
  totalPackets : Int
  connectionCount : Int
  acceptedCount : Int
  rejectedCount : Int
  firstSeen : Int
  lastSeen : Int
deriving Repr, DecidableEq

/-- The loop state: the `summaries` dict (insertion-ordered association
list) and the two counters. -/
structure AggState where
  summaries : List (String × Summary)
  processedLines : Nat
  skippedLines : Nat
deriving Repr, DecidableEq

/-- Initial loop state (`summaries = {}`, counters 0). -/
def initState : AggState := ⟨[], 0, 0⟩

/-- Dict lookup in the summaries map. -/
def lookupSummary : List (String × Summary) → String → Option Summary
  | [], _ => none
  | (k', v) :: rest, k => if k' = k then some v else lookupSummary rest k

/-- Dict store `summaries[key] = v`: replace in place, else append. -/
def storeSummary : List (String × Summary) → String → Summary → List (String × Summary)
  | [], k, v => [(k, v)]
  | (k', v') :: rest, k, v =>
    if k' = k then (k, v) :: rest else (k', v') :: storeSummary rest k v

/-- One parsed, accepted flow record (the local variables of the loop body
after all checks and conversions succeeded). -/
structure FlowRecord where
  srcaddr : String
  dstaddr : String
  srcport : Int
  dstport : Int
  protocol : String
  packets : Int
  bytes : Int
  windowstart : Int
  windowend : Int
  action : String
deriving Repr, DecidableEq

/-- The connection tuple key
`f"{srcaddr}:{srcport_int}->{dstaddr}:{dstport_int}:{protocol}"`
(src/terraform/lambda.py line 193). -/
def tupleKey (srcaddr : String) (srcport : Int) (dstaddr : String) (dstport : Int)
    (protocol : String) : String :=
  srcaddr ++ ":" ++ toString srcport ++ "->" ++ dstaddr ++ ":" ++ toString dstport
    ++ ":" ++ protocol

/-- Tuple key of a parsed record. -/
def recordKey (r : FlowRecord) : String :=
  tupleKey r.srcaddr r.srcport r.dstaddr r.dstport r.protocol

/-- The fresh summary inserted on first sight of a key
(src/terraform/lambda.py lines 196-210). -/
def newSummary (r : FlowRecord) : Summary :=
  { sourceIp := r.srcaddr
    destinationIp := r.dstaddr
    sourcePort := r.srcport
    destinationPort := r.dstport
    protocol := r.protocol
    totalBytes := 0
    totalPackets := 0
    connectionCount := 0
    acceptedCount := 0
    rejectedCount := 0
    firstSeen := r.windowstart
    lastSeen := r.windowend }

/-- The accumulation applied to the looked-up summary
(src/terraform/lambda.py lines 212-224). -/
def accumulate (s : Summary) (r : FlowRecord) : Summary :=
  { s with
    totalBytes := s.totalBytes + r.bytes
    totalPackets := s.totalPackets + r.packets
    connectionCount := s.connectionCount + 1
    firstSeen := min s.firstSeen r.windowstart
    lastSeen := max s.lastSeen r.windowend
    acceptedCount := if r.action = "ACCEPT" then s.acceptedCount + 1 else s.acceptedCount
    rejectedCount := if r.action = "REJECT" then s.rejectedCount + 1 else s.rejectedCount }

/-- Insert-or-update of one record into the summaries dict
(src/terraform/lambda.py lines 196-224). -/
def applyRecord (m : List (String × Summary)) (r : FlowRecord) : List (String × Summary) :=
  let k := recordKey r
  let s := match lookupSummary m k with
    | none => newSummary r
    | some s => s
  storeSummary m k (accumulate s r)

/-- Outcome of the loop body for one line. -/
inductive LineOutcome where
  | silent
  | counted
  | record (r : FlowRecord)
deriving Repr, DecidableEq

/-- Classification of one (unwrapped) line, following the loop body of
`process_vpc_flow_log_file` step by step (src/terraform/lambda.py
lines 130-190): empty and `version` header lines are `silent`
(`continue` without counting); too few fields, dash/NODATA records and
numeric conversion failures are `counted` (`skipped_lines += 1`);
otherwise the parsed record is returned. -/
def classifyLine (line : String) : LineOutcome :=
  if (pyStrip line).isEmpty then .silent
  else if pyStartsWith line "version" then .silent
  else
    let fields := pySplit ' ' line
    if fields.length < 13 then .counted
    else
      let srcaddr := fields.getD 3 ""
      let dstaddr := fields.getD 4 ""
      let srcport := fields.getD 5 ""
      let dstport := fields.getD 6 ""
      let protocol := fields.getD 7 ""
      let packets := fields.getD 8 ""
      let bytes_transferred := fields.getD 9 ""
      let windowstart := fields.getD 10 ""
      let windowend := fields.getD 11 ""
      let action := fields.getD 12 ""
      let flowlogstatus := if fields.length > 13 then fields.getD 13 "" else "OK"
      if srcaddr = "-" ∨ dstaddr = "-" ∨ windowstart = "-" ∨ windowend = "-"
          ∨ action = "-" ∨ flowlogstatus = "NODATA" then .counted
      else
        match (if srcport = "-" then some 0 else pyInt srcport),
              (if dstport = "-" then some 0 else pyInt dstport),
              (if packets = "-" then some 0 else pyInt packets),
              (if bytes_transferred = "-" then some 0 else pyInt bytes_transferred),
              pyInt windowstart, pyInt windowend with
        | some sp, some dp, some pk, some bt, some ws, some we =>
          .record ⟨srcaddr, dstaddr, sp, dp, protocol, pk, bt, ws, we, action⟩
        | _, _, _, _, _, _ => .counted

/-- One iteration of the loop on the aggregation state. -/
def lineStep (st : AggState) (line : String) : AggState :=
  match classifyLine line with
  | .silent => st
  | .counted => { st with skippedLines := st.skippedLines + 1 }
  | .record r =>
    { st with
      summaries := applyRecord st.summaries r
      processedLines := st.processedLines + 1 }

/-- The whole parsing/aggregation loop over a list of lines. -/
def processFlowLogLines (lines : List String) : AggState :=
  lines.foldl lineStep initState

/-- The connection key recomputed during finalization
(src/terraform/lambda.py line 244); it is also the summary's
deterministic `id` (line 245). -/
def connectionKey (s : Summary) : String :=
  s.sourceIp ++ ":" ++ toString s.sourcePort ++ "->" ++ s.destinationIp ++ ":"
    ++ toString s.destinationPort ++ ":" ++ s.protocol

/-- The input string hashed into the publish identifier
`uuid.uuid5(uuid.NAMESPACE_DNS, uuid_input)` (src/terraform/lambda.py
lines 248-249).  `uuid5` is a fixed deterministic function, so two
summaries receive the same `uuid` exactly when they produce the same
`uuid_input` (up to SHA-1 collisions); the derivation is modelled up to
that fixed function. -/
def uuidInput (s : Summary) (timestamp : String) : String :=
  connectionKey s ++ ":" ++ timestamp ++ ":" ++ toString s.totalBytes ++ ":"
    ++ toString s.totalPackets

/-! Derived views of the loop, used to state and prove properties of the
aggregation (they are characterizations, not a second model: the theorems
below relate them to `processFlowLogLines`). -/

/-- The record a line contributes, if any. -/
def lineRecord (line : String) : Option FlowRecord :=
  match classifyLine line with
  | .record r => some r
  | _ => none

/-- The (ordered) list of parsed records contributed by `lines` to the
tuple key `k`. -/
def contribs (lines : List String) (k : String) : List FlowRecord :=
  (lines.filterMap lineRecord).filter (fun r => recordKey r = k)

/-- Folding one record into the (optional) summary of its key: first
sight initializes, later sights accumulate. -/
def accumStep : Option Summary → FlowRecord → Option Summary
  | none, r => some (accumulate (newSummary r) r)
  | some s, r => some (accumulate s r)

/-- The five order-insensitive statistics of a summary. -/
structure Stats where
  totalBytes : Int
  totalPackets : Int
  connectionCount : Int
  firstSeen : Int
  lastSeen : Int
deriving Repr, DecidableEq

/-- Statistics projection of an optional summary. -/
def statsOf : Option Summary → Option Stats
  | none => none
  | some s => some ⟨s.totalBytes, s.totalPackets, s.connectionCount, s.firstSeen, s.lastSeen⟩

/-- The statistics-level image of `accumStep`. -/
def statsStep : Option Stats → FlowRecord → Option Stats
  | none, r => some ⟨r.bytes, r.packets, 1, r.windowstart, r.windowend⟩
  | some t, r =>
    some ⟨t.totalBytes + r.bytes, t.totalPackets + r.packets, t.connectionCount + 1,
      min t.firstSeen r.windowstart, max t.lastSeen r.windowend⟩

/-- The dash-placeholder/NODATA discard condition of the loop
(src/terraform/lambda.py lines 172-174), on the split fields. -/
def dashNodata (fields : List String) : Prop :=
  fields.getD 3 "" = "-" ∨ fields.getD 4 "" = "-" ∨ fields.getD 10 "" = "-"
    ∨ fields.getD 11 "" = "-" ∨ fields.getD 12 "" = "-"
    ∨ (if 13 < fields.length then fields.getD 13 "" else "OK") = "NODATA"

/-- Failure of one of the six numeric conversions of the loop
(src/terraform/lambda.py lines 180-185), on the split fields. -/
def numericFail (fields : List String) : Prop :=
  (if fields.getD 5 "" = "-" then some 0 else pyInt (fields.getD 5 "")) = none
    ∨ (if fields.getD 6 "" = "-" then some 0 else pyInt (fields.getD 6 "")) = none
    ∨ (if fields.getD 8 "" = "-" then some 0 else pyInt (fields.getD 8 "")) = none
    ∨ (if fields.getD 9 "" = "-" then some 0 else pyInt (fields.getD 9 "")) = none
    ∨ pyInt (fields.getD 10 "") = none
    ∨ pyInt (fields.getD 11 "") = none

/-- The exhaustive list of reasons for which the loop increments
`skipped_lines`: too few fields, dash/NODATA discard, or a numeric
conversion failure. -/
def countedSkip (line : String) : Prop :=
  let fields := pySplit ' ' line
  fields.length < 13
    ∨ (13 ≤ fields.length ∧ dashNodata fields)
    ∨ (13 ≤ fields.length ∧ ¬ dashNodata fields ∧ numericFail fields)

end FlowLog

namespace Rex

/-- Abstract syntax for the fragment of Python regular expressions used
by `parse_resource_from_description`: character classes, literals
(as sequences of single-character classes), alternation, greedy and lazy
repetition, capture groups and the end anchor. -/
inductive RE where
  | eps : RE
  | cls : (Char → Bool) → RE
  | seq : RE → RE → RE
  | alt : RE → RE → RE
  | starG : RE → RE
  | starL : RE → RE
  | grp : Nat → RE → RE
  | eos : RE

/-- Captured groups: group index paired with the matched characters. -/
abbrev Caps := List (Nat × List Char)

/-- Backtracking matcher in continuation-passing style, alternatives in
Python priority order (left alternative first, greedy star longest
first, lazy star shortest first).  `fuel` bounds the recursion depth so
that the function is structurally recursive and evaluates inside the
kernel; `reSearch` supplies fuel that exceeds the deepest possible
backtracking path, so the `0` case is never reached.  As in Python, a
star iteration must consume at least one character (the translated
patterns all have single-character star bodies). -/
def mrun : Nat → RE → List Char → Caps → (List Char → Caps → Option Caps) → Option Caps
  | 0, _, _, _, _ => none
  | fuel + 1, re, cs, caps, k =>
    match re with
    | .eps => k cs caps
    | .cls p =>
      match cs with
      | [] => none
      | c :: rest => if p c then k rest caps else none
    | .seq a b => mrun fuel a cs caps (fun cs2 caps2 => mrun fuel b cs2 caps2 k)
    | .alt a b =>
      match mrun fuel a cs caps k with
      | some res => some res
      | none => mrun fuel b cs caps k
    | .starG r =>
      match mrun fuel r cs caps (fun cs2 caps2 =>
          if cs2.length < cs.length then mrun fuel (RE.starG r) cs2 caps2 k
          else none) with
      | some res => some res
      | none => k cs caps
    | .starL r =>
      match k cs caps with
      | some res => some res
      | none =>
        mrun fuel r cs caps (fun cs2 caps2 =>
          if cs2.length < cs.length then mrun fuel (RE.starL r) cs2 caps2 k
          else none)
    | .grp n r =>
      mrun fuel r cs caps (fun cs2 caps2 =>
        k cs2 ((n, cs.take (cs.length - cs2.length)) :: caps2))
    | .eos =>
      match cs with
      | [] => k cs caps
      | ['\n'] => k cs caps
      | _ => none

/-- Node count of a pattern, used to size the matcher fuel. -/
def reSize : RE → Nat
  | .eps => 1
  | .eos => 1
  | .cls _ => 1
  | .seq a b => reSize a + reSize b + 1
  | .alt a b => reSize a + reSize b + 1
  | .starG r => reSize r + 1
  | .starL r => reSize r + 1
  | .grp _ r => reSize r + 1

/-- Leftmost search: try a match starting at every position, earliest
position first, as `re.search` does. -/
def searchFrom (re : RE) (fuel : Nat) : List Char → Option Caps
  | [] =>
    mrun fuel re [] [] (fun _ caps => some ((0, []) :: caps))
  | cs@(_ :: rest) =>
    match mrun fuel re cs []
        (fun rem caps => some ((0, cs.take (cs.length - rem.length)) :: caps)) with
    | some caps => some caps
    | none => searchFrom re fuel rest

/-- Models `re.search(pattern, s)`: `none` when there is no match,
otherwise the captures of the leftmost match. -/
def reSearch (re : RE) (s : String) : Option Caps :=
  searchFrom re ((s.data.length + 2) * (reSize re + 2)) s.data

/-- Models `match.group(n)` (for groups that participated in the match). -/
def reGroup (caps : Caps) (n : Nat) : Option String :=
  (caps.find? (fun p => p.1 = n)).map (fun p => String.mk p.2)

/-- Case-insensitive literal (all the translated patterns use
`re.IGNORECASE`). -/
def litCI (s : String) : RE :=
  s.data.foldr (fun ch acc => RE.seq (.cls (fun c => c.toLower = ch.toLower)) acc) .eps

/-- One-or-more, greedy. -/
def plusG (r : RE) : RE := .seq r (.starG r)

-- character classes
def isWsChar (c : Char) : Bool :=
  c = ' ' ∨ c = '\t' ∨ c = '\n' ∨ c = '\r' ∨ c = '\x0b' ∨ c = '\x0c'
def isHexCI (c : Char) : Bool := c.isDigit || ('a' ≤ c.toLower && c.toLower ≤ 'f')
def isAlnum (c : Char) : Bool := c.isAlpha || c.isDigit
def isAlnumDash (c : Char) : Bool := isAlnum c || c = '-'
def isAlnumDashUnd (c : Char) : Bool := isAlnum c || c = '-' || c = '_'
def isAlnumUndDash (c : Char) : Bool := isAlnum c || c = '_' || c = '-'
def isColonWsDash (c : Char) : Bool := c = ':' || isWsChar c || c = '-'
def isNotSlash (c : Char) : Bool := c ≠ '/'
def isNotColon (c : Char) : Bool := c ≠ ':'
def isDotAny (c : Char) : Bool := c ≠ '\n'
def isHexDashCI (c : Char) : Bool := isHexCI c || c = '-'

-- `ELB\s+(app|net|gwy)/([^/]+)/([a-f0-9]+)` (gather.py line 438)
def elbRe : RE :=
  .seq (litCI "ELB") (.seq (plusG (.cls isWsChar))
    (.seq (.grp 1 (.alt (litCI "app") (.alt (litCI "net") (litCI "gwy"))))
      (.seq (litCI "/") (.seq (.grp 2 (plusG (.cls isNotSlash)))
        (.seq (litCI "/") (.grp 3 (plusG (.cls isHexCI))))))))

-- `ELB\s+([a-zA-Z0-9-]+)$` (line 445)
def classicElbRe : RE :=
  .seq (litCI "ELB") (.seq (plusG (.cls isWsChar))
    (.seq (.grp 1 (plusG (.cls isAlnumDash))) .eos))


-- `AWS Lambda VPC ENI[:\s-]+([a-zA-Z0-9-_]+)` (line 451)
def lambdaRe : RE :=
  .seq (litCI "AWS Lambda VPC ENI") (.seq (plusG (.cls isColonWsDash))
    (.grp 1 (plusG (.cls isAlnumDashUnd))))

-- `NAT Gateway\s+(nat-[a-f0-9]+)` (line 457)
def natRe : RE :=
  .seq (litCI "NAT Gateway") (.seq (plusG (.cls isWsChar))
    (.grp 1 (.seq (litCI "nat-") (plusG (.cls isHexCI)))))

-- `VPC Endpoint.*?(vpce-[a-f0-9]+)` (line 463)
def vpceRe : RE :=
  .seq (litCI "VPC Endpoint") (.seq (.starL (.cls isDotAny))
    (.grp 1 (.seq (litCI "vpce-") (plusG (.cls isHexCI)))))

-- `(rslvr-(in|out)-[a-f0-9]+)` (line 471)
def resolverRe : RE :=
  .grp 1 (.seq (litCI "rslvr-") (.seq (.grp 2 (.alt (litCI "in") (litCI "out")))
    (.seq (litCI "-") (plusG (.cls isHexCI)))))

-- `arn:aws:ecs:[^:]+:[^:]+:(attachment|task)/([a-zA-Z0-9-]+)` (line 484)
def ecsArnRe : RE :=
  .seq (litCI "arn:aws:ecs:") (.seq (plusG (.cls isNotColon))
    (.seq (litCI ":") (.seq (plusG (.cls isNotColon))
      (.seq (litCI ":") (.seq (.grp 1 (.alt (litCI "attachment") (litCI "task")))
        (.seq (litCI "/") (.grp 2 (plusG (.cls isAlnumDash)))))))))

-- `ecs[:\s-]*(task|service)[:\s-]*([a-zA-Z0-9-]+)` (line 490)
def ecsRe : RE :=
  .seq (litCI "ecs") (.seq (.starG (.cls isColonWsDash))
    (.seq (.grp 1 (.alt (litCI "task") (litCI "service")))
      (.seq (.starG (.cls isColonWsDash)) (.grp 2 (plusG (.cls isAlnumDash))))))

-- `([a-zA-Z0-9-]+)` (lines 503 and 508; no flag, the class is case-closed)
def alnumRunRe : RE := .grp 1 (plusG (.cls isAlnumDash))

-- `(fs-[a-f0-9]+)` (line 513)
def fsRe : RE := .grp 1 (.seq (litCI "fs-") (plusG (.cls isHexCI)))

-- `fsx.*?(fs-[a-f0-9]+)` (line 519)
def fsxRe : RE :=
  .seq (litCI "fsx") (.seq (.starL (.cls isDotAny))
    (.grp 1 (.seq (litCI "fs-") (plusG (.cls isHexCI)))))

-- `kinesis-firehose-([a-zA-Z0-9_-]+)` (line 530)
def firehoseRe : RE :=
  .seq (litCI "kinesis-firehose-") (.grp 1 (plusG (.cls isAlnumUndDash)))

-- `broker\s+(b-[a-f0-9-]+)` (line 536)
def brokerRe : RE :=
  .seq (litCI "broker") (.seq (plusG (.cls isWsChar))
    (.grp 1 (.seq (litCI "b-") (plusG (.cls isHexDashCI)))))

-- `(j-[A-Z0-9]+)` with IGNORECASE (line 541)
def emrRe : RE := .grp 1 (.seq (litCI "j-") (plusG (.cls isAlnum)))

-- `(ws-[a-zA-Z0-9]+)` (line 554)
def wsRe : RE := .grp 1 (.seq (litCI "ws-") (plusG (.cls isAlnum)))

-- `(d-[a-zA-Z0-9]+)` (line 563)
def dirRe : RE := .grp 1 (.seq (litCI "d-") (plusG (.cls isAlnum)))

-- `(s-[a-f0-9]+)` (line 568)
def transferRe : RE := .grp 1 (.seq (litCI "s-") (plusG (.cls isHexCI)))

-- `(firewall-[a-f0-9]+)` (line 581)
def fwRe : RE := .grp 1 (.seq (litCI "firewall-") (plusG (.cls isHexCI)))

-- `(sgw-[A-F0-9]+)` with IGNORECASE (line 624)
def sgwRe : RE := .grp 1 (.seq (litCI "sgw-") (plusG (.cls isHexCI)))

-- `eks-([a-zA-Z0-9-]+)` (line 641)
def eksRe : RE := .seq (litCI "eks-") (.grp 1 (plusG (.cls isAlnumDash)))

-- `(tgw-[a-f0-9]+)` (line 646)
def tgwRe : RE := .grp 1 (.seq (litCI "tgw-") (plusG (.cls isHexCI)))

end Rex

namespace Classifier

open Rex

/-- ELB/ALB/NLB pattern (gather.py lines 436-441). -/
def rule_elb (d : String) : Option (String × Option String) :=
  match reSearch elbRe d with
  | some caps =>
    some ("elb", some ((reGroup caps 1).getD "" ++ "/" ++ (reGroup caps 2).getD ""
      ++ "/" ++ (reGroup caps 3).getD ""))
  | none => none

/-- Classic ELB pattern (lines 443-447). -/
def rule_classic_elb (d : String) : Option (String × Option String) :=
  match reSearch classicElbRe d with
  | some caps => some ("elb", reGroup caps 1)
  | none => none

/-- Lambda pattern (lines 449-453). -/
def rule_lambda (d : String) : Option (String × Option String) :=
  match reSearch lambdaRe d with
  | some caps => some ("lambda", reGroup caps 1)
  | none => none

/-- NAT Gateway pattern (lines 455-459). -/
def rule_nat_gateway (d : String) : Option (String × Option String) :=
  match reSearch natRe d with
  | some caps => some ("nat-gateway", reGroup caps 1)
  | none => none

/-- VPC Endpoint pattern (lines 461-465). -/
def rule_vpc_endpoint (d : String) : Option (String × Option String) :=
  match reSearch vpceRe d with
  | some caps => some ("vpc-endpoint", reGroup caps 1)
  | none => none

/-- Route53 Resolver patterns (lines 467-480). -/
def rule_route53_resolver (d : String) : Option (String × Option String) :=
  if strContains (pyLower d) "route 53 resolver"
      || strContains (pyLower d) "route53 resolver" then
    match reSearch resolverRe d with
    | some caps =>
      if (reGroup caps 2).getD "" = "in" then some ("route53-resolver-inbound", reGroup caps 1)
      else some ("route53-resolver-outbound", reGroup caps 1)
    | none => some ("route53-resolver", none)
  else none

/-- ECS task ARN pattern (lines 482-486). -/
def rule_ecs_arn (d : String) : Option (String × Option String) :=
  match reSearch ecsArnRe d with
  | some caps => some ("ecs", reGroup caps 2)
  | none => none

/-- ECS simple pattern (lines 488-492). -/
def rule_ecs (d : String) : Option (String × Option String) :=
  match reSearch ecsRe d with
  | some caps => some ("ecs", reGroup caps 2)
  | none => none

/-- awsvpc/task heuristic (lines 493-494). -/
def rule_awsvpc (d : String) : Option (String × Option String) :=
  if strContains (pyLower d) "awsvpc"
      && (strContains (pyLower d) "task" || strContains (pyLower d) "eni") then
    some ("ecs", some (pySlice d 50))
  else none

/-- RDS pattern (lines 496-499). -/
def rule_rds (d : String) : Option (String × Option String) :=
  if strContains (pyLower d) "rdsnetworkinterface"
      || strContains (pyLower d) "rds network interface" then some ("rds", none)
  else none

/-- ElastiCache pattern (lines 501-504). -/
def rule_elasticache (d : String) : Option (String × Option String) :=
  if strContains (pyLower d) "elasticache" then
    some ("elasticache", (reSearch alnumRunRe d).bind (fun c => reGroup c 1))
  else none

/-- Redshift pattern (lines 506-509). -/
def rule_redshift (d : String) : Option (String × Option String) :=
  if strContains (pyLower d) "redshift" then
    some ("redshift", (reSearch alnumRunRe d).bind (fun c => reGroup c 1))
  else none

/-- EFS pattern (lines 511-515). -/
def rule_efs (d : String) : Option (String × Option String) :=
  match reSearch fsRe d with
  | some caps => some ("efs", reGroup caps 1)
  | none => if strContains (pyLower d) "efs" then some ("efs", none) else none

/-- FSx pattern (lines 517-521). -/
def rule_fsx (d : String) : Option (String × Option String) :=
  match reSearch fsxRe d with
  | some caps => some ("fsx", reGroup caps 1)
  | none => if strContains (pyLower d) "fsx" then some ("fsx", none) else none

/-- MSK pattern (lines 523-525). -/
def rule_msk (d : String) : Option (String × Option String) :=
  if strContains (pyLower d) "msk" || strContains (pyLower d) "kafka" then
    some ("msk", none)
  else none

/-- Kinesis Firehose pattern (lines 527-531). -/
def rule_kinesis_firehose (d : String) : Option (String × Option String) :=
  if strContains (pyLower d) "kinesis firehose"
      || strContains (pyLower d) "kinesis-firehose" then
    some ("kinesis-firehose", (reSearch firehoseRe d).bind (fun c => reGroup c 1))
  else none

/-- Amazon MQ pattern (lines 533-537). -/
def rule_mq (d : String) : Option (String × Option String) :=
  if strContains (pyLower d) "amazon mq" then
    some ("mq", (reSearch brokerRe d).bind (fun c => reGroup c 1))
  else none

/-- EMR pattern (lines 539-542). -/
def rule_emr (d : String) : Option (String × Option String) :=
  if strContains (pyLower d) "emr" || strContains (pyLower d) "elastic mapreduce" then
    some ("emr", (reSearch emrRe d).bind (fun c => reGroup c 1))
  else none

/-- Glue pattern (lines 544-546). -/
def rule_glue (d : String) : Option (String × Option String) :=
  if strContains (pyLower d) "glue" then some ("glue", none) else none

/-- SageMaker pattern (lines 548-550). -/
def rule_sagemaker (d : String) : Option (String × Option String) :=
  if strContains (pyLower d) "sagemaker" then some ("sagemaker", none) else none

/-- WorkSpaces pattern (lines 552-555). -/
def rule_workspaces (d : String) : Option (String × Option String) :=
  if strContains (pyLower d) "workspaces" then
    some ("workspaces", (reSearch wsRe d).bind (fun c => reGroup c 1))
  else none

/-- AppStream pattern (lines 557-559). -/
def rule_appstream (d : String) : Option (String × Option String) :=
  if strContains (pyLower d) "appstream" then some ("appstream", none) else none

/-- Directory Service pattern (lines 561-564). -/
def rule_directory_service (d : String) : Option (String × Option String) :=
  if strContains (pyLower d) "directory" || strContains d "ds-" then
    some ("directory-service", (reSearch dirRe d).bind (fun c => reGroup c 1))
  else none

/-- Transfer Family pattern (lines 566-569). -/
def rule_transfer (d : String) : Option (String × Option String) :=
  if strContains (pyLower d) "transfer" then
    some ("transfer", (reSearch transferRe d).bind (fun c => reGroup c 1))
  else none

/-- MWAA pattern (lines 571-573). -/
def rule_mwaa (d : String) : Option (String × Option String) :=
  if strContains (pyLower d) "mwaa" || strContains (pyLower d) "airflow" then
    some ("mwaa", none)
  else none

/-- Global Accelerator pattern (lines 575-577). -/
def rule_global_accelerator (d : String) : Option (String × Option String) :=
  if strContains (pyLower d) "global accelerator" || strContains (pyLower d) "accelerator" then
    some ("global-accelerator", none)
  else none

/-- Network Firewall pattern (lines 579-582). -/
def rule_network_firewall (d : String) : Option (String × Option String) :=
  if strContains (pyLower d) "network firewall" || strContains (pyLower d) "firewall" then
    some ("network-firewall", (reSearch fwRe d).bind (fun c => reGroup c 1))
  else none

/-- API Gateway pattern (lines 584-586). -/
def rule_api_gateway (d : String) : Option (String × Option String) :=
  if strContains (pyLower d) "api gateway" || strContains (pyLower d) "apigateway" then
    some ("api-gateway", none)
  else none

/-- CodeBuild pattern (lines 588-590). -/
def rule_codebuild (d : String) : Option (String × Option String) :=
  if strContains (pyLower d) "codebuild" then some ("codebuild", none) else none

/-- Cloud9 pattern (lines 592-594). -/
def rule_cloud9 (d : String) : Option (String × Option String) :=
  if strContains (pyLower d) "cloud9" then some ("cloud9", none) else none

/-- Neptune pattern (lines 596-598). -/
def rule_neptune (d : String) : Option (String × Option String) :=
  if strContains (pyLower d) "neptune" then some ("neptune", none) else none

/-- DocumentDB pattern (lines 600-602). -/
def rule_documentdb (d : String) : Option (String × Option String) :=
  if strContains (pyLower d) "documentdb" || strContains (pyLower d) "docdb" then
    some ("documentdb", none)
  else none

/-- MemoryDB pattern (lines 604-606). -/
def rule_memorydb (d : String) : Option (String × Option String) :=
  if strContains (pyLower d) "memorydb" then some ("memorydb", none) else none

/-- OpenSearch pattern (lines 608-610). -/
def rule_opensearch (d : String) : Option (String × Option String) :=
  if strContains (pyLower d) "opensearch" then some ("opensearch", none) else none

/-- Elasticsearch pattern (lines 611-612). -/
def rule_elasticsearch (d : String) : Option (String × Option String) :=
  if strContains (pyLower d) "elasticsearch" then some ("elasticsearch", none) else none

/-- Backup pattern (lines 614-616). -/
def rule_backup (d : String) : Option (String × Option String) :=
  if strContains (pyLower d) "backup" then some ("backup", none) else none

/-- DataSync pattern (lines 618-620). -/
def rule_datasync (d : String) : Option (String × Option String) :=
  if strContains (pyLower d) "datasync" then some ("datasync", none) else none

/-- Storage Gateway pattern (lines 622-625). -/
def rule_storage_gateway (d : String) : Option (String × Option String) :=
  if strContains (pyLower d) "storage gateway" || strContains (pyLower d) "storagegateway" then
    some ("storage-gateway", (reSearch sgwRe d).bind (fun c => reGroup c 1))
  else none

/-- Amazon Connect pattern (lines 627-629). -/
def rule_connect (d : String) : Option (String × Option String) :=
  if strContains (pyLower d) "connect" && strContains (pyLower d) "amazon" then
    some ("connect", none)
  else none

/-- App Runner pattern (lines 631-633). -/
def rule_apprunner (d : String) : Option (String × Option String) :=
  if strContains (pyLower d) "apprunner" || strContains (pyLower d) "app runner" then
    some ("apprunner", none)
  else none

/-- Batch pattern (lines 635-637). -/
def rule_batch (d : String) : Option (String × Option String) :=
  if strContains (pyLower d) "batch" && strContains (pyLower d) "compute environment" then
    some ("batch", none)
  else none

/-- EKS pattern (lines 639-642). -/
def rule_eks (d : String) : Option (String × Option String) :=
  if strContains (pyLower d) "eks" then
    some ("eks", (reSearch eksRe d).bind (fun c => reGroup c 1))
  else none

/-- Transit Gateway pattern (lines 644-647). -/
def rule_transit_gateway (d : String) : Option (String × Option String) :=
  if strContains (pyLower d) "transit gateway" || strContains (pyLower d) "tgw" then
    some ("transit-gateway", (reSearch tgwRe d).bind (fun c => reGroup c 1))
  else none

/-- QuickSight pattern (lines 649-651). -/
def rule_quicksight (d : String) : Option (String × Option String) :=
  if strContains (pyLower d) "quicksight" then some ("quicksight", none) else none

/-- Athena pattern (lines 653-655). -/
def rule_athena (d : String) : Option (String × Option String) :=
  if strContains (pyLower d) "athena" then some ("athena", none) else none

/-- Lake Formation pattern (lines 657-659). -/
def rule_lake_formation (d : String) : Option (String × Option String) :=
  if strContains (pyLower d) "lake formation" || strContains (pyLower d) "lakeformation" then
    some ("lake-formation", none)
  else none

/-- IoT Greengrass pattern (lines 661-663). -/
def rule_greengrass (d : String) : Option (String × Option String) :=
  if strContains (pyLower d) "greengrass" then some ("iot-greengrass", none) else none

/-- Verified Access pattern (lines 665-667). -/
def rule_verified_access (d : String) : Option (String × Option String) :=
  if strContains (pyLower d) "verified access" then some ("verified-access", none) else none

/-- The ordered description rule table: the body of
`parse_resource_from_description` (src/app/gather.py lines 436-667),
one entry per early-returning branch, in source order. -/
def desc_rules : List (String → Option (String × Option String)) :=
  [rule_elb,
   rule_classic_elb,
   rule_lambda,
   rule_nat_gateway,
   rule_vpc_endpoint,
   rule_route53_resolver,
   rule_ecs_arn,
   rule_ecs,
   rule_awsvpc,
   rule_rds,
   rule_elasticache,
   rule_redshift,
   rule_efs,
   rule_fsx,
   rule_msk,
   rule_kinesis_firehose,
   rule_mq,
   rule_emr,
   rule_glue,
   rule_sagemaker,
   rule_workspaces,
   rule_appstream,
   rule_directory_service,
   rule_transfer,
   rule_mwaa,
   rule_global_accelerator,
   rule_network_firewall,
   rule_api_gateway,
   rule_codebuild,
   rule_cloud9,
   rule_neptune,
   rule_documentdb,
   rule_memorydb,
   rule_opensearch,
   rule_elasticsearch,
   rule_backup,
   rule_datasync,
   rule_storage_gateway,
   rule_connect,
   rule_apprunner,
   rule_batch,
   rule_eks,
   rule_transit_gateway,
   rule_quicksight,
   rule_athena,
   rule_lake_formation,
   rule_greengrass,
   rule_verified_access]

/-- First rule that fires, in table order — the early-return semantics
of the source's if/return chain. -/
def firstRule : List (String → Option (String × Option String)) → String →
    Option (String × Option String)
  | [], _ => none
  | r :: rs, d =>
    match r d with
    | some x => some x
    | none => firstRule rs d

/-- Translation of `parse_resource_from_description` (src/app/gather.py
lines 421-669): empty description yields `(None, None)`; otherwise the
first rule of the ordered table that fires decides, and `(None, None)`
results when none fires. -/
def parse_resource_from_description (description : String) :
    Option String × Option String :=
  if description.isEmpty then (none, none)
  else
    match firstRule desc_rules description with
    | some (t, i) => (some t, i)
    | none => (none, none)

end Classifier

namespace Classifier

/-- Known AWS service account ids (src/app/gather.py lines 55-67). -/
def aws_service_accounts : List (String × String) :=
  [("547236950347", "rds"),
   ("055625016279", "rds"),
   ("210876761215", "elasticache"),
   ("628676013162", "ecs"),
   ("326244987664", "ecs"),
   ("580336018581", "route53-resolver"),
   ("682432039653", "grafana"),
   ("737353593908", "kinesis-firehose"),
   ("542591804455", "mq"),
   ("295330671495", "mq")]

/-- RequesterId prefix table (src/app/gather.py lines 71-164), in source
order: Python dicts iterate in insertion order and the loop takes the
first matching prefix. -/
def service_mapping : List (String × String) :=
  [("amazon-elb", "elb"),
   ("amazon-elasticloadbalancing", "elb"),
   ("amazon-rds", "rds"),
   ("amazon-redshift", "redshift"),
   ("amazon-elasticache", "elasticache"),
   ("amazon-neptune", "neptune"),
   ("amazon-documentdb", "documentdb"),
   ("amazon-memorydb", "memorydb"),
   ("amazon-keyspaces", "keyspaces"),
   ("amazon-dynamodb", "dynamodb"),
   ("amazon-ecs", "ecs"),
   ("amazon-eks", "eks"),
   ("aws-batch", "batch"),
   ("aws-lambda", "lambda"),
   ("amazon-msk", "msk"),
   ("amazon-emr", "emr"),
   ("aws-glue", "glue"),
   ("amazon-kinesis", "kinesis"),
   ("kinesis-firehose", "kinesis-firehose"),
   ("amazon-kinesis-firehose", "kinesis-firehose"),
   ("amazon-opensearch", "opensearch"),
   ("amazon-elasticsearch", "elasticsearch"),
   ("aws-sagemaker", "sagemaker"),
   ("amazon-efs", "efs"),
   ("amazon-fsx", "fsx"),
   ("aws-backup", "backup"),
   ("aws-storage-gateway", "storage-gateway"),
   ("amazon-mq", "mq"),
   ("amazon-connect", "connect"),
   ("amazon-mwaa", "mwaa"),
   ("aws-transfer", "transfer"),
   ("aws-datasync", "datasync"),
   ("amazon-directory-service", "directory-service"),
   ("aws-directory-service", "directory-service"),
   ("aws-secrets-manager", "secrets-manager"),
   ("aws-cloud9", "cloud9"),
   ("aws-codebuild", "codebuild"),
   ("amazon-workspaces", "workspaces"),
   ("amazon-appstream", "appstream"),
   ("aws-app-runner", "apprunner"),
   ("aws-app-mesh", "appmesh"),
   ("amazon-apigateway", "api-gateway"),
   ("vpc-endpoint", "vpc-endpoint"),
   ("aws-global-accelerator", "global-accelerator"),
   ("aws-network-firewall", "network-firewall"),
   ("aws-verified-access", "verified-access"),
   ("aws-transit-gateway", "transit-gateway"),
   ("aws-iot", "iot"),
   ("aws-iot-greengrass", "iot-greengrass"),
   ("amazon-quicksight", "quicksight"),
   ("aws-lake-formation", "lake-formation"),
   ("amazon-athena", "athena"),
   ("amazon-grafana", "grafana"),
   ("awsgrafana", "grafana"),
   ("route53-resolver", "route53-resolver"),
   ("aws-route53-resolver", "route53-resolver"),
   ("amazon-aws", "aws-managed-service")]

/-- InterfaceType mapping (src/app/gather.py lines 923-956). -/
def type_mapping : List (String × String) :=
  [("nat_gateway", "nat-gateway"),
   ("vpc_endpoint", "vpc-endpoint"),
   ("gateway_load_balancer_endpoint", "vpc-endpoint"),
   ("network_load_balancer", "elb"),
   ("gateway_load_balancer", "elb"),
   ("load_balancer", "elb"),
   ("lambda", "lambda"),
   ("efa", "ec2"),
   ("trunk", "ec2"),
   ("branch", "ec2"),
   ("api_gateway_managed", "api-gateway"),
   ("iot_rules_managed", "iot"),
   ("global_accelerator_managed", "global-accelerator"),
   ("transit_gateway", "transit-gateway"),
   ("transit_gateway_attachment", "transit-gateway"),
   ("network_insights_analysis", "network-insights"),
   ("quicksight", "quicksight"),
   ("aws_codestar_connections_managed", "codestar"),
   ("elasticmapreduce", "emr")]

/-- The ENI context dict built for lookups (src/app/gather.py
lines 874-879). -/
structure EniInfo where
  id : String
  vpc_id : String
  subnet_id : String
  availability_zone : String
deriving Repr, DecidableEq

/-- The resource descriptor assembled by `identify_resource`. -/
structure ResourceInfo where
  resource_type : String
  resource_id : String
  resource_name : String
  resource_tags : List (String × String)
  requester_id : String
  requester_managed : Bool
deriving Repr, DecidableEq

/-- The fields of a raw ENI record that `identify_resource` reads.
Fields read through `eni.get(...)` with a default are `Option`s
(`none` models an absent key); `attachmentInstanceId` collapses
`eni.get('Attachment', {}).get('InstanceId')`, which is `None` both
when the attachment dict is absent and when it has no instance id. -/
structure Eni where
  networkInterfaceId : String
  vpcId : Option String
  subnetId : Option String
  availabilityZone : Option String
  description : Option String
  attachmentInstanceId : Option String
  tagSet : List (String × String)
  interfaceType : Option String
  requesterId : Option String
  requesterManaged : Bool
deriving Repr, DecidableEq

/-- The Resource Lookup collaborator `get_resource_by_id(resource_type,
resource_id, eni_data)` (src/app/gather.py lines 788-855): a network
call, abstracted as a function returning `(resource_name, tags)`. -/
abbrev Lookup := String → Option String → Option EniInfo → String × List (String × String)

/-- Method 3 (src/app/gather.py lines 919-957): map the provider
interface type when it is not the generic default. -/
def applyInterfaceType (interface_type : String) (rt : String) : String :=
  if interface_type ≠ "interface" then dictGetD type_mapping interface_type interface_type
  else rt

/-- Method 4 (src/app/gather.py lines 959-965): managed-service tag
markers, forcing grafana. -/
def applyTagMarkers (tags : List (String × String)) (rt rid : String) : String × String :=
  if dictHasKey tags "AmazonGrafanaManaged" || dictHasKey tags "aws:grafana:workspace-id" then
    let workspace_id := dictGetD tags "aws:grafana:workspace-id" "managed"
    ("grafana", if workspace_id ≠ "managed" then workspace_id else rid)
  else (rt, rid)

/-- Method 5 (src/app/gather.py lines 967-984): requester-id
heuristics; only a still-`unknown` resource type is refined. -/
def applyRequesterId (requester_id : String) (rt : String) : String :=
  if requester_id ≠ "" then
    let rt1 := if strContains (pyLower requester_id) "grafana" ∧ rt = "unknown" then "grafana"
      else rt
    match dictGet aws_service_accounts requester_id with
    | some svc => if rt1 = "unknown" then svc else rt1
    | none =>
      match service_mapping.find? (fun p => pyStartsWith requester_id p.1) with
      | some p => if rt1 = "unknown" then p.2 else rt1
      | none => rt1
  else rt

/-- Translation of `identify_resource` (src/app/gather.py
lines 857-1012), with the Resource Lookup collaborator as an explicit
argument. -/
def identify_resource (lookup : Lookup) (eni : Eni) : ResourceInfo :=
  let eni_info : EniInfo :=
    ⟨eni.networkInterfaceId, eni.vpcId.getD "", eni.subnetId.getD "",
      eni.availabilityZone.getD ""⟩
  let result0 : ResourceInfo :=
    { resource_type := "unknown", resource_id := "N/A", resource_name := "N/A",
      resource_tags := [], requester_id := eni.requesterId.getD "",
      requester_managed := eni.requesterManaged }
  let description := eni.description.getD ""
  -- Method 1 (lines 890-906): EKS pod ENIs, returns immediately
  if pyStartsWith description "aws-K8S-" then
    let eni_tags := dictOfPairs eni.tagSet
    let cluster_name := dictGetD eni_tags "cluster.k8s.amazonaws.com/name" "unknown"
    let instance_id := dictGetD eni_tags "node.k8s.amazonaws.com/instance_id"
      (eni.attachmentInstanceId.getD "unknown")
    { result0 with
      resource_type := "eks-pod"
      resource_id := cluster_name ++ "/" ++ instance_id
      resource_name := cluster_name
      resource_tags := eni_tags.filter (fun p =>
        pyStartsWith p.1 "eks:" || pyStartsWith p.1 "cluster.k8s."
          || pyStartsWith p.1 "node.k8s.") }
  -- Method 2 (lines 908-917): EC2 attachment, returns immediately
  else if pyTruthy eni.attachmentInstanceId then
    let instance_id := eni.attachmentInstanceId.getD ""
    let nt := lookup "ec2" (some instance_id) none
    { result0 with
      resource_type := "ec2"
      resource_id := instance_id
      resource_name := nt.1
      resource_tags := nt.2 }
  else
    let rt3 := applyInterfaceType (eni.interfaceType.getD "interface") result0.resource_type
    let tags := dictOfPairs eni.tagSet
    let rtid4 := applyTagMarkers tags rt3 result0.resource_id
    let rt5 := applyRequesterId (eni.requesterId.getD "") rtid4.1
    let r5 : ResourceInfo := { result0 with resource_type := rt5, resource_id := rtid4.2 }
    -- Method 6 (lines 986-1006): description parsing
    let r6 : ResourceInfo :=
      match parse_resource_from_description description with
      | (some parsed_type, parsed_id) =>
        let r : ResourceInfo :=
          { r5 with
            resource_type := parsed_type
            resource_id := match parsed_id with
              | some pid => pid
              | none => r5.resource_id }
        match parsed_id with
        | some pid =>
          let nt := lookup parsed_type (some pid) (some eni_info)
          { r with resource_name := nt.1, resource_tags := nt.2 }
        | none =>
          if parsed_type ∈ ["rds", "elasticache", "redshift", "neptune", "documentdb",
              "memorydb"] then
            let nt := lookup parsed_type none (some eni_info)
            if nt.1 ≠ "" ∧ nt.1 ≠ "N/A" then
              { r with resource_id := nt.1, resource_name := nt.1, resource_tags := nt.2 }
            else r
          else r
      | (none, _) => r5
    -- Fallback (lines 1008-1010)
    if r6.resource_id = "N/A" ∧ r6.resource_type ≠ "unknown" then
      { r6 with
        resource_id := if description ≠ "" then pySlice description 100 else "aws-managed" }
    else r6

end Classifier

namespace Classifier

def noLookup : Lookup := fun _ rid _ => (rid.getD "N/A", [])

def blankEni : Eni :=
  { networkInterfaceId := "eni-0", vpcId := none, subnetId := none,
    availabilityZone := none, description := none, attachmentInstanceId := none,
    tagSet := [], interfaceType := none, requesterId := none, requesterManaged := false }

/-- The fields of a subnet record read by `create_virtual_appliances`
(src/app/gather.py lines 302-416). -/
structure Subnet where
  vpcId : String
  cidrBlock : String
  subnetId : String
  tags : List (String × String)
  availabilityZone : String
  availabilityZoneId : Option String
deriving Repr, DecidableEq

/-- One attachment of an internet gateway. -/
structure IgwAttachment where
  vpcId : Option String
  state : Option String
deriving Repr, DecidableEq

/-- The fields of an internet-gateway record read by
`create_virtual_appliances`. -/
structure Igw where
  internetGatewayId : String
  attachments : List IgwAttachment
  tags : List (String × String)
deriving Repr, DecidableEq

/-- A synthesized virtual appliance entry (the dict built at
src/app/gather.py lines 342-366 and 391-415).  The `last_updated`
wall-clock field is omitted; `typeTag` is the dict's `type` key. -/
structure VirtualEni where
  id : String
  vpc_id : String
  account_id : String
  subnet_ids : List (String × String)
  azs : List (String × String)
  interface_type : String
  typeTag : String
  status : String
  mac_address : String
  description : String
  security_group_ids : List String
  private_ip_addresses : List String
  public_ips : List String
  resource_type : String
  resource_id : String
  resource_name : String
  resource_tags : List (String × String)
  requester_id : String
  requester_managed : Bool
  group : String
deriving Repr, DecidableEq

/-- Parse one dotted-quad octet as the `ipaddress` module does:
one to three decimal digits, value at most 255, no leading zeros. -/
def parseOctet (s : String) : Option Nat :=
  let cs := s.data
  if cs ≠ [] ∧ cs.all (fun c => c.isDigit) ∧ cs.length ≤ 3 then
    let v := cs.foldl (fun a c => a * 10 + (c.toNat - 48)) 0
    if v ≤ 255 ∧ (cs.length = 1 ∨ cs.headD '0' ≠ '0') then some v else none
  else none

/-- Parse a dotted-quad IPv4 address into its 32-bit value. -/
def parseIPv4 (s : String) : Option Nat :=
  match pySplit '.' s with
  | [a, b, c, d] =>
    match parseOctet a, parseOctet b, parseOctet c, parseOctet d with
    | some x, some y, some z, some w => some (((x * 256 + y) * 256 + z) * 256 + w)
    | _, _, _, _ => none
  | _ => none

/-- Dotted-quad rendering of a 32-bit value (`str(IPv4Address)`). -/
def ipToString (n : Nat) : String :=
  toString (n / 16777216 % 256) ++ "." ++ toString (n / 65536 % 256) ++ "."
    ++ toString (n / 256 % 256) ++ "." ++ toString (n % 256)

/-- Models `str(ipaddress.IPv4Network(cidr, strict=False).network_address
+ ofs)` (src/app/gather.py lines 328-329 and 377-378): mask the host
bits away, add the offset.  On input where the `ipaddress` constructor
would raise (never produced by the cloud API), the cidr string itself is
returned so the function stays total. -/
def networkAddressPlus (cidr : String) (ofs : Nat) : String :=
  match pySplit '/' cidr with
  | [addr, plen] =>
    match parseIPv4 addr, pyInt plen with
    | some ip, some p =>
      if 0 ≤ p ∧ p ≤ 32 then
        let sh := 32 - p.toNat
        ipToString ((ip / 2 ^ sh * 2 ^ sh + ofs) % 2 ^ 32)
      else cidr
    | _, _ => cidr
  | [addr] =>
    match parseIPv4 addr with
    | some ip => ipToString ((ip + ofs) % 2 ^ 32)
    | none => cidr
  | _ => cidr

/-- Append a subnet to its VPC's group, preserving the first-appearance
order of keys — the dict grouping of src/app/gather.py lines 303-308. -/
def appendGroup (m : List (String × List Subnet)) (k : String) (s : Subnet) :
    List (String × List Subnet) :=
  match m with
  | [] => [(k, [s])]
  | (k', l) :: rest =>
    if k' = k then (k', l ++ [s]) :: rest else (k', l) :: appendGroup rest k s

/-- `subnets_by_vpc` (src/app/gather.py lines 303-308). -/
def subnetsByVpc (subnets : List Subnet) : List (String × List Subnet) :=
  subnets.foldl (fun m s => appendGroup m s.vpcId s) []

/-- Lookup of one VPC's subnet group (`subnets_by_vpc.get(vpc_id, [])`). -/
def lookupGroup : List (String × List Subnet) → String → Option (List Subnet)
  | [], _ => none
  | (k', v) :: rest, k => if k' = k then some v else lookupGroup rest k

/-- The `subnet_ids` dict accumulated over a VPC's subnets
(src/app/gather.py lines 331-335 and 380-384). -/
def subnetIdsOf (vpc_subnets : List Subnet) : List (String × String) :=
  vpc_subnets.foldl (fun m s =>
    dictInsert m s.subnetId (dictGetD (dictOfPairs s.tags) "Name" s.subnetId)) []

/-- The `azs` dict accumulated over a VPC's subnets
(src/app/gather.py lines 336-339 and 385-388). -/
def azsOf (vpc_subnets : List Subnet) : List (String × String) :=
  vpc_subnets.foldl (fun m s =>
    dictInsert m s.availabilityZone (s.availabilityZoneId.getD s.availabilityZone)) []

/-- The IGW virtual-appliance entry built for one attached available
gateway (src/app/gather.py lines 315-367). -/
def igwEniOf (account_id : String) (igw : Igw) (vpc_id : String)
    (vpc_subnets : List Subnet) : VirtualEni :=
  let igw_id := igw.internetGatewayId
  let igw_tags := dictOfPairs igw.tags
  { id := igw_id
    vpc_id := vpc_id
    account_id := account_id
    subnet_ids := subnetIdsOf vpc_subnets
    azs := azsOf vpc_subnets
    interface_type := "igw"
    typeTag := "igw"
    status := "available"
    mac_address := "virtual"
    description := "Virtual interface for Internet Gateway " ++ igw_id
    security_group_ids := []
    private_ip_addresses := vpc_subnets.map (fun s => networkAddressPlus s.cidrBlock 1)
    public_ips := []
    resource_type := "igw"
    resource_id := igw_id
    resource_name := dictGetD igw_tags "Name" igw_id
    resource_tags := igw_tags
    requester_id := "aws-igw"
    requester_managed := true
    group := "vpc" }

/-- The DNS-resolver virtual-appliance entry built for one VPC group
(src/app/gather.py lines 369-416). -/
def dnsEniOf (account_id : String) (vpc_id : String)
    (vpc_subnets : List Subnet) : VirtualEni :=
  { id := "resolver-" ++ vpc_id
    vpc_id := vpc_id
    account_id := account_id
    subnet_ids := subnetIdsOf vpc_subnets
    azs := azsOf vpc_subnets
    interface_type := "dns"
    typeTag := "dns"
    status := "available"
    mac_address := "virtual"
    description := "Virtual interface for VPC Route53 Resolver in " ++ vpc_id
    security_group_ids := []
    private_ip_addresses := vpc_subnets.map (fun s => networkAddressPlus s.cidrBlock 2)
    public_ips := []
    resource_type := "dns"
    resource_id := "resolver-" ++ vpc_id
    resource_name := "Route53 Resolver (" ++ vpc_id ++ ")"
    resource_tags := []
    requester_id := "aws-route53-resolver"
    requester_managed := true
    group := "vpc" }

/-- Translation of `create_virtual_appliances` (src/app/gather.py
lines 286-419): one IGW entry per attached available gateway, then one
DNS-resolver entry per VPC that has subnets, in source order. -/
def create_virtual_appliances (account_id : String) (subnets : List Subnet)
    (igws : List Igw) : List VirtualEni :=
  let subnets_by_vpc := subnetsByVpc subnets
  let igwEnis : List VirtualEni := (igws.map (fun igw =>
    igw.attachments.filterMap (fun att =>
      if pyTruthy att.vpcId ∧ att.state = some "available" then
        let vpc_id := att.vpcId.getD ""
        some (igwEniOf account_id igw vpc_id ((lookupGroup subnets_by_vpc vpc_id).getD []))
      else none))).flatten
  let dnsEnis : List VirtualEni := subnets_by_vpc.map (fun p =>
    dnsEniOf account_id p.1 p.2)
  igwEnis ++ dnsEnis

end Classifier

/-! ## Theorem development -/

/-! Behavioral checks of the regex engine against Python `re.search` on
the patterns of the source, and of the translated classifier on the
examples quoted in the source comments. -/

namespace Rex

example : (reSearch elbRe "ELB app/my-alb/50dc6c495c0c9188").bind (fun c => reGroup c 2)
    = some "my-alb" := by decide
example : (reSearch elbRe "ELB app/my-alb/50dc6c495c0c9188").bind (fun c => reGroup c 1)
    = some "app" := by decide
example : (reSearch elbRe "ELB app/my-alb/50dc6c495c0c9188").bind (fun c => reGroup c 3)
    = some "50dc6c495c0c9188" := by decide
example : reSearch elbRe "glue" = none := by decide
example : (reSearch classicElbRe "ELB my-classic-lb").bind (fun c => reGroup c 1)
    = some "my-classic-lb" := by decide
example : reSearch classicElbRe "ELB my-classic-lb trailing" = none := by decide

-- parity checks against Python re.search on the source's own examples
example : (reSearch elbRe "xELB net/a/b/ff ELB gwy/z/09").bind (fun c => reGroup c 2)
    = some "a" := by decide
example : (reSearch lambdaRe "AWS Lambda VPC ENI----").bind (fun c => reGroup c 1)
    = some "-" := by decide
example : (reSearch lambdaRe "AWS Lambda VPC ENI-my-function-abc123").bind (fun c => reGroup c 1)
    = some "my-function-abc123" := by decide
example : (reSearch vpceRe "VPC Endpoint Interface vpce-0123456789abcdef and vpce-ff").bind
      (fun c => reGroup c 1)
    = some "vpce-0123456789abcdef" := by decide
example : (reSearch ecsRe "ecs-task-abc123").bind (fun c => reGroup c 2)
    = some "abc123" := by decide
example : (reSearch ecsRe "ECS task: my-svc").bind (fun c => reGroup c 2)
    = some "my-svc" := by decide
example : (reSearch resolverRe "Route 53 Resolver: rslvr-in-55829d25693e4b729:rni-9").bind
      (fun c => reGroup c 1)
    = some "rslvr-in-55829d25693e4b729" := by decide
example : (reSearch resolverRe "Route 53 Resolver: rslvr-in-55829d25693e4b729:rni-9").bind
      (fun c => reGroup c 2)
    = some "in" := by decide
example : (reSearch ecsArnRe "arn:aws:ecs:eu-central-1:442708645802:attachment/c19-33e8").bind
      (fun c => reGroup c 2)
    = some "c19-33e8" := by decide
example : (reSearch alnumRunRe "ElastiCache cluster xyz").bind (fun c => reGroup c 1)
    = some "ElastiCache" := by decide
example : (reSearch fsxRe "FSx file system fs-0123").bind (fun c => reGroup c 1)
    = some "fs-0123" := by decide
example : (reSearch classicElbRe "ELB my-lb\n").bind (fun c => reGroup c 1)
    = some "my-lb" := by decide

end Rex

namespace Classifier

example : parse_resource_from_description "ELB app/my-alb/50dc6c495c0c9188"
    = (some "elb", some "app/my-alb/50dc6c495c0c9188") := by decide
example : parse_resource_from_description "Interface for NAT Gateway nat-0123456789abcdef"
    = (some "nat-gateway", some "nat-0123456789abcdef") := by decide
example : parse_resource_from_description
      "Route 53 Resolver: rslvr-out-9bb0d69b4dd94f918:rni-51f53f6ef7b6436f8"
    = (some "route53-resolver-outbound", some "rslvr-out-9bb0d69b4dd94f918") := by decide
example : parse_resource_from_description "RDSNetworkInterface" = (some "rds", none) := by decide
example : parse_resource_from_description "glue" = (some "glue", none) := by decide
example : parse_resource_from_description "" = (none, none) := by decide
example : parse_resource_from_description "EFS mount target for fs-0123456789abcdef"
    = (some "efs", some "fs-0123456789abcdef") := by decide
example : parse_resource_from_description "VPC Endpoint Interface vpce-0123456789abcdef"
    = (some "vpc-endpoint", some "vpce-0123456789abcdef") := by decide
example : parse_resource_from_description "AWS Lambda VPC ENI-my-function-abc123"
    = (some "lambda", some "my-function-abc123") := by decide
example : parse_resource_from_description "arbitrary text with no service hints"
    = (none, none) := by decide

example : (identify_resource noLookup blankEni).resource_type = "unknown" := by decide
example : (identify_resource noLookup blankEni).resource_id = "N/A" := by decide
example : (identify_resource noLookup
    { blankEni with attachmentInstanceId := some "i-123",
                    description := some "ELB app/x/ff" }).resource_type = "ec2" := by decide
example : (identify_resource noLookup
    { blankEni with attachmentInstanceId := some "i-123",
                    description := some "aws-K8S-eni1",
                    tagSet := [("cluster.k8s.amazonaws.com/name", "prod")] })
    = { resource_type := "eks-pod", resource_id := "prod/i-123", resource_name := "prod",
        resource_tags := [("cluster.k8s.amazonaws.com/name", "prod")],
        requester_id := "", requester_managed := false } := by decide
example : (identify_resource noLookup
    { blankEni with interfaceType := some "nat_gateway" }).resource_type
    = "nat-gateway" := by decide
example : (identify_resource noLookup
    { blankEni with interfaceType := some "nat_gateway" }).resource_id
    = "aws-managed" := by decide
example : (identify_resource noLookup
    { blankEni with interfaceType := some "" }).resource_type = "" := by decide
example : (identify_resource noLookup
    { blankEni with requesterId := some "amazon-elasticache-xyz" }).resource_type
    = "elasticache" := by decide
example : (identify_resource noLookup
    { blankEni with description := some "glue" }).resource_type = "glue" := by decide
example : (identify_resource noLookup
    { blankEni with description := some "glue" }).resource_id = "glue" := by decide

example : networkAddressPlus "10.0.1.0/24" 2 = "10.0.1.2" := by decide
example : networkAddressPlus "10.0.2.128/25" 1 = "10.0.2.129" := by decide
example : networkAddressPlus "172.31.5.77/20" 2 = "172.31.0.2" := by decide

end Classifier

namespace Decimal

theorem toDigitsCore_eq_natDec (fuel : Nat) :
    ∀ n ds, n < 10 ^ fuel → 0 < fuel →
      Nat.toDigitsCore 10 fuel n ds = natDec n ++ ds := by
  induction fuel with
  | zero => omega
  | succ f ih =>
    intro n ds hn _
    rw [Nat.toDigitsCore]
    by_cases h10 : n < 10
    · have hdiv : n / 10 = 0 := Nat.div_eq_of_lt h10
      simp only [hdiv, if_pos rfl]
      rw [natDec, dif_pos h10]
      have hm : n % 10 = n := Nat.mod_eq_of_lt h10
      simp [hm]
    · have hdiv : n / 10 ≠ 0 := by omega
      simp only [if_neg hdiv]
      have hlt : n / 10 < 10 ^ f := by
        rw [Nat.div_lt_iff_lt_mul (by omega : (0:Nat) < 10)]
        calc n < 10 ^ (f + 1) := hn
        _ = 10 ^ f * 10 := by rw [pow_succ]
      have hf : 0 < f := by
        rcases Nat.eq_zero_or_pos f with h0 | h0
        · subst h0; simp at hn; omega
        · exact h0
      rw [ih (n / 10) (Nat.digitChar (n % 10) :: ds) hlt hf]
      conv_rhs => rw [natDec]
      rw [dif_neg h10]
      simp

theorem toDigits_eq_natDec (n : Nat) : Nat.toDigits 10 n = natDec n := by
  have h1 : n < 10 ^ (n + 1) := by
    calc n < 2 ^ n := Nat.lt_two_pow n
    _ ≤ 10 ^ n := Nat.pow_le_pow_left (by omega) n
    _ ≤ 10 ^ (n + 1) := Nat.pow_le_pow_right (by omega) (by omega)
  have := toDigitsCore_eq_natDec (n + 1) n [] h1 (by omega)
  simpa [Nat.toDigits] using this

theorem digitChar_lt10 : ∀ m, m < 10 → (Nat.digitChar m).toNat - 48 = m := by decide

theorem digitChar_isDigit : ∀ m, m < 10 → (Nat.digitChar m).isDigit = true := by decide

theorem decVal_append_digit (cs : List Char) (c : Char) :
    decVal (cs ++ [c]) = decVal cs * 10 + (c.toNat - 48) := by
  simp [decVal, List.foldl_append]

theorem decVal_natDec (n : Nat) : decVal (natDec n) = n := by
  induction n using Nat.strong_induction_on with
  | _ n ih =>
    rw [natDec]
    by_cases h10 : n < 10
    · rw [dif_pos h10]
      simp [decVal, digitChar_lt10 n h10]
    · rw [dif_neg h10]
      rw [decVal_append_digit]
      rw [ih (n / 10) (Nat.div_lt_self (by omega) (by omega))]
      rw [digitChar_lt10 (n % 10) (Nat.mod_lt _ (by omega))]
      omega

theorem natDec_inj {m n : Nat} (h : natDec m = natDec n) : m = n := by
  have := decVal_natDec m
  rw [h, decVal_natDec] at this
  omega

theorem natDec_digits (n : Nat) : ∀ c ∈ natDec n, c.isDigit = true := by
  induction n using Nat.strong_induction_on with
  | _ n ih =>
    rw [natDec]
    by_cases h10 : n < 10
    · rw [dif_pos h10]
      intro c hc
      simp at hc
      subst hc
      exact digitChar_isDigit n h10
    · rw [dif_neg h10]
      intro c hc
      rcases List.mem_append.mp hc with h | h
      · exact ih (n / 10) (Nat.div_lt_self (by omega) (by omega)) c h
      · simp at h
        subst h
        exact digitChar_isDigit (n % 10) (Nat.mod_lt _ (by omega))

theorem natDec_ne_nil (n : Nat) : natDec n ≠ [] := by
  rw [natDec]
  by_cases h10 : n < 10
  · rw [dif_pos h10]; simp
  · rw [dif_neg h10]; simp

theorem natToString_data (n : Nat) : (toString n).data = natDec n := by
  show (Nat.repr n).data = natDec n
  rw [Nat.repr, toDigits_eq_natDec]
  rfl

theorem intToString_data : ∀ i : Int,
    (toString i).data = match i with
      | .ofNat m => natDec m
      | .negSucc m => '-' :: natDec (m + 1) := by
  intro i
  match i with
  | .ofNat m => exact natToString_data m
  | .negSucc m =>
    show ("-" ++ toString (Nat.succ m)).data = _
    rw [String.data_append]
    rw [natToString_data]
    rfl

theorem intToString_no_colon (i : Int) : ∀ c ∈ (toString i).data, c ≠ ':' := by
  rw [intToString_data]
  match i with
  | .ofNat m =>
    intro c hc hcolon
    have := natDec_digits m c hc
    subst hcolon
    simp at this
  | .negSucc m =>
    intro c hc hcolon
    rcases List.mem_cons.mp hc with h | h
    · subst hcolon; simp at h
    · have := natDec_digits (m + 1) c h
      subst hcolon
      simp at this

theorem intToString_inj {i j : Int} (h : toString i = toString j) : i = j := by
  have hd : (toString i).data = (toString j).data := by rw [h]
  rw [intToString_data, intToString_data] at hd
  match i, j with
  | .ofNat m, .ofNat n =>
    simp only at hd
    exact congrArg Int.ofNat (natDec_inj hd)
  | .ofNat m, .negSucc n =>
    simp only at hd
    have hm : '-' ∈ natDec m := by rw [hd]; exact List.mem_cons_self _ _
    have := natDec_digits m '-' hm
    simp at this
  | .negSucc m, .ofNat n =>
    simp only at hd
    have hm : '-' ∈ natDec n := by rw [← hd]; exact List.mem_cons_self _ _
    have := natDec_digits n '-' hm
    simp at this
  | .negSucc m, .negSucc n =>
    simp only [List.cons.injEq] at hd
    have := natDec_inj hd.2
    exact congrArg Int.negSucc (by omega)

theorem append_sep_inj : ∀ (xs xs' ys ys' : List Char),
    (∀ c ∈ xs, c ≠ ':') → (∀ c ∈ xs', c ≠ ':') →
    xs ++ ':' :: ys = xs' ++ ':' :: ys' → xs = xs' ∧ ys = ys' := by
  intro xs
  induction xs with
  | nil =>
    intro xs' ys ys' _ hx' h
    cases xs' with
    | nil => simpa using h
    | cons a as =>
      simp only [List.nil_append, List.cons_append, List.cons.injEq] at h
      exact absurd h.1.symm (hx' a (List.mem_cons_self _ _))
  | cons a as ih =>
    intro xs' ys ys' hx hx' h
    cases xs' with
    | nil =>
      simp only [List.nil_append, List.cons_append, List.cons.injEq] at h
      exact absurd h.1 (hx a (List.mem_cons_self _ _))
    | cons b bs =>
      simp only [List.cons_append, List.cons.injEq] at h
      obtain ⟨hab, hrest⟩ := h
      have := ih bs ys ys' (fun c hc => hx c (List.mem_cons_of_mem _ hc))
        (fun c hc => hx' c (List.mem_cons_of_mem _ hc)) hrest
      exact ⟨by rw [hab, this.1], this.2⟩

end Decimal

namespace FlowLog

theorem lookup_store_self (m : List (String × Summary)) (k : String) (v : Summary) :
    lookupSummary (storeSummary m k v) k = some v := by
  induction m with
  | nil => simp [storeSummary, lookupSummary]
  | cons p rest ih =>
    obtain ⟨k', v'⟩ := p
    by_cases h : k' = k
    · subst h
      simp [storeSummary, lookupSummary]
    · simp [storeSummary, lookupSummary, h, ih]

theorem lookup_store_other (m : List (String × Summary)) (k' k : String) (v : Summary)
    (h : k' ≠ k) : lookupSummary (storeSummary m k' v) k = lookupSummary m k := by
  induction m with
  | nil => simp [storeSummary, lookupSummary, h]
  | cons p rest ih =>
    obtain ⟨k0, v0⟩ := p
    by_cases h0 : k0 = k'
    · subst h0
      simp [storeSummary, lookupSummary, h]
    · simp only [storeSummary, if_neg h0, lookupSummary]
      by_cases h1 : k0 = k
      · simp [h1]
      · simp [h1, ih]

theorem lookup_apply_self (m : List (String × Summary)) (r : FlowRecord) :
    lookupSummary (applyRecord m r) (recordKey r)
      = accumStep (lookupSummary m (recordKey r)) r := by
  unfold applyRecord
  cases h : lookupSummary m (recordKey r) with
  | none => simp [h, lookup_store_self, accumStep]
  | some s => simp [h, lookup_store_self, accumStep]

theorem lookup_apply_other (m : List (String × Summary)) (r : FlowRecord) (k : String)
    (h : recordKey r ≠ k) :
    lookupSummary (applyRecord m r) k = lookupSummary m k := by
  unfold applyRecord
  cases h0 : lookupSummary m (recordKey r) with
  | none => simp [h0, lookup_store_other _ _ _ _ h]
  | some s => simp [h0, lookup_store_other _ _ _ _ h]

theorem lineStep_summaries (st : AggState) (line : String) :
    (lineStep st line).summaries = match lineRecord line with
      | none => st.summaries
      | some r => applyRecord st.summaries r := by
  unfold lineStep lineRecord
  cases classifyLine line <;> rfl

theorem contribs_nil (k : String) : contribs [] k = [] := rfl

theorem contribs_cons (line : String) (rest : List String) (k : String) :
    contribs (line :: rest) k =
      match lineRecord line with
      | some r => if recordKey r = k then r :: contribs rest k else contribs rest k
      | none => contribs rest k := by
  cases hrec : lineRecord line with
  | none => simp [contribs, List.filterMap_cons, hrec]
  | some r =>
    by_cases hk : recordKey r = k
    · simp [contribs, List.filterMap_cons, hrec, hk]
    · simp [contribs, List.filterMap_cons, hrec, hk]

theorem lookup_foldl (lines : List String) :
    ∀ (st : AggState) (k : String),
      lookupSummary (List.foldl lineStep st lines).summaries k
        = List.foldl accumStep (lookupSummary st.summaries k) (contribs lines k) := by
  induction lines with
  | nil => intro st k; simp [contribs]
  | cons line rest ih =>
    intro st k
    show lookupSummary (List.foldl lineStep (lineStep st line) rest).summaries k = _
    rw [ih (lineStep st line) k]
    have hsum := lineStep_summaries st line
    rw [contribs_cons]
    cases hrec : lineRecord line with
    | none =>
      rw [hrec] at hsum
      rw [hsum]
    | some r =>
      rw [hrec] at hsum
      rw [hsum]
      by_cases hk : recordKey r = k
      · subst hk
        rw [lookup_apply_self]
        simp
      · rw [lookup_apply_other _ _ _ hk]
        simp only [if_neg hk]

theorem lookup_process (lines : List String) (k : String) :
    lookupSummary (processFlowLogLines lines).summaries k
      = List.foldl accumStep none (contribs lines k) := by
  unfold processFlowLogLines
  rw [lookup_foldl lines initState k]
  rfl

theorem statsOf_accumStep (o : Option Summary) (r : FlowRecord) :
    statsOf (accumStep o r) = statsStep (statsOf o) r := by
  cases o with
  | none => simp [accumStep, statsOf, statsStep, accumulate, newSummary]
  | some s => simp [accumStep, statsOf, statsStep, accumulate]

theorem statsStep_comm (o : Option Stats) (r1 r2 : FlowRecord) :
    statsStep (statsStep o r1) r2 = statsStep (statsStep o r2) r1 := by
  cases o with
  | none =>
    simp only [statsStep, Option.some.injEq, Stats.mk.injEq]
    exact ⟨add_comm _ _, add_comm _ _, trivial, min_comm _ _, max_comm _ _⟩
  | some t =>
    simp only [statsStep, Option.some.injEq, Stats.mk.injEq]
    exact ⟨add_right_comm _ _ _, add_right_comm _ _ _, trivial, min_right_comm _ _ _, Max.right_comm _ _ _⟩

theorem statsOf_foldl (rs : List FlowRecord) :
    ∀ o, statsOf (List.foldl accumStep o rs) = List.foldl statsStep (statsOf o) rs := by
  induction rs with
  | nil => intro o; rfl
  | cons r rest ih =>
    intro o
    show statsOf (List.foldl accumStep (accumStep o r) rest) = _
    rw [ih (accumStep o r), statsOf_accumStep]
    rfl

end FlowLog

namespace FlowLog

theorem classify_silent (line : String)
    (h : (pyStrip line).isEmpty = true ∨ pyStartsWith line "version" = true) :
    classifyLine line = .silent := by
  unfold classifyLine
  rcases h with h | h
  · simp [h]
  · by_cases h0 : (pyStrip line).isEmpty <;> simp [h0, h]

theorem classify_skip_state (st : AggState) (line : String) :
    (lineStep st line).skippedLines
      = st.skippedLines + (match classifyLine line with | .counted => 1 | _ => 0) := by
  unfold lineStep
  cases classifyLine line <;> simp

theorem classify_counted_iff (line : String)
    (h1 : (pyStrip line).isEmpty = false)
    (h2 : pyStartsWith line "version" = false) :
    classifyLine line = .counted ↔ countedSkip line := by
  unfold classifyLine countedSkip
  simp only [h1, h2, Bool.false_eq_true, if_false]
  by_cases hlen : (pySplit ' ' line).length < 13
  · simp [hlen]
  · simp only [hlen, if_false]
    by_cases hdash : dashNodata (pySplit ' ' line)
    · rw [if_pos ?hd]
      case hd => exact hdash
      simp [hdash, hlen, Nat.le_of_not_lt hlen]
    · rw [if_neg ?hd]
      case hd => exact hdash
      cases h5 : (if (pySplit ' ' line).getD 5 "" = "-" then some 0
          else pyInt ((pySplit ' ' line).getD 5 "")) with
      | none =>
        simp only [List.getD_eq_getElem?_getD] at h5
        simp [numericFail, h5, hdash, hlen, Nat.le_of_not_lt hlen]
      | some sp =>
      cases h6 : (if (pySplit ' ' line).getD 6 "" = "-" then some 0
          else pyInt ((pySplit ' ' line).getD 6 "")) with
      | none =>
        simp only [List.getD_eq_getElem?_getD] at h6
        simp [numericFail, h5, h6, hdash, hlen, Nat.le_of_not_lt hlen]
      | some dp =>
      cases h8 : (if (pySplit ' ' line).getD 8 "" = "-" then some 0
          else pyInt ((pySplit ' ' line).getD 8 "")) with
      | none =>
        simp only [List.getD_eq_getElem?_getD] at h8
        simp [numericFail, h5, h6, h8, hdash, hlen, Nat.le_of_not_lt hlen]
      | some pk =>
      cases h9 : (if (pySplit ' ' line).getD 9 "" = "-" then some 0
          else pyInt ((pySplit ' ' line).getD 9 "")) with
      | none =>
        simp only [List.getD_eq_getElem?_getD] at h9
        simp [numericFail, h5, h6, h8, h9, hdash, hlen, Nat.le_of_not_lt hlen]
      | some bt =>
      cases h10 : pyInt ((pySplit ' ' line).getD 10 "") with
      | none =>
        simp only [List.getD_eq_getElem?_getD] at h10
        simp [numericFail, h5, h6, h8, h9, h10, hdash, hlen, Nat.le_of_not_lt hlen]
      | some ws =>
      cases h11 : pyInt ((pySplit ' ' line).getD 11 "") with
      | none =>
        simp only [List.getD_eq_getElem?_getD] at h11
        simp [numericFail, h5, h6, h8, h9, h10, h11, hdash, hlen, Nat.le_of_not_lt hlen]
      | some we =>
        simp only [List.getD_eq_getElem?_getD] at h5 h6 h8 h9 h10 h11
        simp [numericFail, h5, h6, h8, h9, h10, h11, hdash, hlen]

end FlowLog

namespace FlowLog

theorem accumulate_counts (s : Summary) (r : FlowRecord) :
    (accumulate s r).connectionCount = s.connectionCount + 1
    ∧ (accumulate s r).acceptedCount
        = s.acceptedCount + (if r.action = "ACCEPT" then 1 else 0)
    ∧ (accumulate s r).rejectedCount
        = s.rejectedCount + (if r.action = "REJECT" then 1 else 0) := by
  refine ⟨rfl, ?_, ?_⟩ <;> simp [accumulate] <;> split <;> simp

theorem foldl_accum_counts (rs : List FlowRecord) :
    ∀ s : Summary, ∃ s' : Summary, List.foldl accumStep (some s) rs = some s'
      ∧ s'.connectionCount = s.connectionCount + rs.length
      ∧ s'.acceptedCount
          = s.acceptedCount + rs.countP (fun r => decide (r.action = "ACCEPT"))
      ∧ s'.rejectedCount
          = s.rejectedCount + rs.countP (fun r => decide (r.action = "REJECT")) := by
  induction rs with
  | nil => intro s; exact ⟨s, rfl, by simp, by simp, by simp⟩
  | cons r rest ih =>
    intro s
    obtain ⟨s', h1, h2, h3, h4⟩ := ih (accumulate s r)
    obtain ⟨hc, ha, hr⟩ := accumulate_counts s r
    refine ⟨s', h1, ?_, ?_, ?_⟩
    · rw [h2, hc]
      simp [List.length_cons]
      omega
    · rw [h3, ha]
      rw [List.countP_cons]
      by_cases hA : r.action = "ACCEPT" <;> (simp [hA]; try omega)
    · rw [h4, hr]
      rw [List.countP_cons]
      by_cases hR : r.action = "REJECT" <;> (simp [hR]; try omega)

theorem countP_actions (l : List FlowRecord) :
    l.countP (fun r => decide (r.action = "ACCEPT"))
        + l.countP (fun r => decide (r.action = "REJECT")) ≤ l.length
    ∧ (l.countP (fun r => decide (r.action = "ACCEPT"))
        + l.countP (fun r => decide (r.action = "REJECT")) = l.length ↔
        ∀ r ∈ l, r.action = "ACCEPT" ∨ r.action = "REJECT") := by
  induction l with
  | nil => simp
  | cons r rest ih =>
    obtain ⟨ihle, ihiff⟩ := ih
    by_cases hA : r.action = "ACCEPT"
    · have hR : ¬ r.action = "REJECT" := by rw [hA]; decide
      simp [List.countP_cons, hA, hR]
      refine ⟨by omega, ?_, ?_⟩
      · intro h
        exact ihiff.mp (by omega)
      · intro h
        have := ihiff.mpr h
        omega
    · by_cases hR : r.action = "REJECT"
      · simp [List.countP_cons, hA, hR]
        refine ⟨by omega, ?_, ?_⟩
        · intro h
          exact ihiff.mp (by omega)
        · intro h
          have := ihiff.mpr h
          omega
      · simp [List.countP_cons, hA, hR]
        exact ⟨by omega, by omega⟩
end FlowLog

namespace FlowLog

theorem colon_data : (":" : String).data = [':'] := rfl

theorem uuid_components (s1 s2 : Summary) (ts : String)
    (hck : connectionKey s1 = connectionKey s2)
    (h : uuidInput s1 ts = uuidInput s2 ts) :
    s1.totalBytes = s2.totalBytes ∧ s1.totalPackets = s2.totalPackets := by
  have hd := congrArg String.data h
  simp only [uuidInput, String.data_append, List.append_assoc, colon_data,
    List.cons_append, List.nil_append, hck] at hd
  have hd2 := List.append_cancel_left hd
  simp only [List.cons.injEq, true_and] at hd2
  have hd3 := List.append_cancel_left hd2
  simp only [List.cons.injEq, true_and] at hd3
  have hsplit := Decimal.append_sep_inj (toString s1.totalBytes).data
    (toString s2.totalBytes).data (toString s1.totalPackets).data
    (toString s2.totalPackets).data
    (Decimal.intToString_no_colon _) (Decimal.intToString_no_colon _) hd3
  constructor
  · exact Decimal.intToString_inj (String.ext hsplit.1)
  · exact Decimal.intToString_inj (String.ext hsplit.2)

end FlowLog

namespace FlowLog

theorem foldl_accum_counts_none (rs : List FlowRecord) (s : Summary)
    (h : List.foldl accumStep none rs = some s) :
    s.connectionCount = rs.length
    ∧ s.acceptedCount = rs.countP (fun r => decide (r.action = "ACCEPT"))
    ∧ s.rejectedCount = rs.countP (fun r => decide (r.action = "REJECT")) := by
  cases rs with
  | nil => cases h
  | cons r rest =>
    have h' : List.foldl accumStep (some (accumulate (newSummary r) r)) rest = some s := h
    obtain ⟨s', h1, h2, h3, h4⟩ := foldl_accum_counts rest (accumulate (newSummary r) r)
    rw [h1] at h'
    injection h' with h'
    subst h'
    obtain ⟨hc, ha, hr⟩ := accumulate_counts (newSummary r) r
    have hn1 : (newSummary r).connectionCount = 0 := rfl
    have hn2 : (newSummary r).acceptedCount = 0 := rfl
    have hn3 : (newSummary r).rejectedCount = 0 := rfl
    refine ⟨?_, ?_, ?_⟩
    · rw [h2, hc, hn1, List.length_cons]
      push_cast
      ring
    · rw [h3, ha, hn2, List.countP_cons]
      by_cases hAr : r.action = "ACCEPT" <;> (simp [hAr]; try omega)
    · rw [h4, hr, hn3, List.countP_cons]
      by_cases hRr : r.action = "REJECT" <;> (simp [hRr]; try omega)

theorem contribs_length_pos (lines : List String) (k : String) (s : Summary)
    (h : lookupSummary (processFlowLogLines lines).summaries k = some s) :
    contribs lines k ≠ [] := by
  intro hnil
  rw [lookup_process, hnil] at h
  cases h

end FlowLog

namespace FlowLog

/-- C2 (amended): for two summaries with the same tuple key finalized at
the same processing timestamp, the uuid (a fixed deterministic function
of `uuidInput`) is identical whenever the two summaries agree on
totalBytes and totalPackets — even if connectionCount, acceptedCount,
rejectedCount, firstSeen or lastSeen differ — and the hashed input
differs whenever totalBytes or totalPackets differ. -/
theorem claim_C2 :
    (∀ (s1 s2 : Summary) (ts : String),
      connectionKey s1 = connectionKey s2 →
      s1.totalBytes = s2.totalBytes → s1.totalPackets = s2.totalPackets →
      uuidInput s1 ts = uuidInput s2 ts)
    ∧ (∀ (s1 s2 : Summary) (ts : String),
      connectionKey s1 = connectionKey s2 →
      (s1.totalBytes ≠ s2.totalBytes ∨ s1.totalPackets ≠ s2.totalPackets) →
      uuidInput s1 ts ≠ uuidInput s2 ts) := by
  constructor
  · intro s1 s2 ts hck hb hp
    unfold uuidInput
    rw [hck, hb, hp]
  · intro s1 s2 ts hck hdiff h
    rcases uuid_components s1 s2 ts hck h with ⟨hb, hp⟩
    rcases hdiff with hd | hd
    · exact hd hb
    · exact hd hp

/-- C2 counterexample: two aggregation runs producing summaries with the
same tuple key, the same timestamp and the same totals, but different
connectionCount (an accumulated value), still produce the identical
`uuid_input`, so `uuid5` gives them the identical uuid — refuting
"differs whenever any accumulated value of the summary differs". -/
theorem claim_C2_counterexample :
    ((lookupSummary (processFlowLogLines
        ["2 1 eni-1 10.0.0.5 10.0.0.9 443 51000 6 10 1500 1000000 1000060 ACCEPT OK"]).summaries
        "10.0.0.5:443->10.0.0.9:51000:6").map (fun s => s.connectionCount)
      ≠ (lookupSummary (processFlowLogLines
        ["2 1 eni-1 10.0.0.5 10.0.0.9 443 51000 6 5 750 1000000 1000060 ACCEPT OK",
         "2 1 eni-1 10.0.0.5 10.0.0.9 443 51000 6 5 750 1000000 1000060 ACCEPT OK"]).summaries
        "10.0.0.5:443->10.0.0.9:51000:6").map (fun s => s.connectionCount))
    ∧ ((lookupSummary (processFlowLogLines
        ["2 1 eni-1 10.0.0.5 10.0.0.9 443 51000 6 10 1500 1000000 1000060 ACCEPT OK"]).summaries
        "10.0.0.5:443->10.0.0.9:51000:6").map (fun s => uuidInput s "2025-10-12T00:00:00")
      = (lookupSummary (processFlowLogLines
        ["2 1 eni-1 10.0.0.5 10.0.0.9 443 51000 6 5 750 1000000 1000060 ACCEPT OK",
         "2 1 eni-1 10.0.0.5 10.0.0.9 443 51000 6 5 750 1000000 1000060 ACCEPT OK"]).summaries
        "10.0.0.5:443->10.0.0.9:51000:6").map (fun s => uuidInput s "2025-10-12T00:00:00")) := by
  constructor
  · decide
  · decide

/-- C2 witness: concrete instance of the amended claim. -/
theorem claim_C2_witness :
    uuidInput ⟨"a", "b", 1, 2, "6", 100, 10, 1, 1, 0, 5, 9⟩ "T"
      ≠ uuidInput ⟨"a", "b", 1, 2, "6", 101, 10, 7, 0, 1, 5, 9⟩ "T" :=
  claim_C2.2 _ _ "T" rfl (Or.inl (by decide))

/-- C3: aggregation is order-independent per tuple key — permuted input
lines yield the same set of tuple keys and, for each key, identical
totalBytes, totalPackets, connectionCount, firstSeen and lastSeen. -/
theorem claim_C3 (l1 l2 : List String) (hperm : l1.Perm l2) :
    (∀ k, (lookupSummary (processFlowLogLines l1).summaries k).isSome
        = (lookupSummary (processFlowLogLines l2).summaries k).isSome)
    ∧ (∀ k, statsOf (lookupSummary (processFlowLogLines l1).summaries k)
        = statsOf (lookupSummary (processFlowLogLines l2).summaries k)) := by
  have key : ∀ k, statsOf (lookupSummary (processFlowLogLines l1).summaries k)
      = statsOf (lookupSummary (processFlowLogLines l2).summaries k) := by
    intro k
    rw [lookup_process, lookup_process, statsOf_foldl, statsOf_foldl]
    have hc : (contribs l1 k).Perm (contribs l2 k) :=
      (hperm.filterMap lineRecord).filter _
    exact hc.foldl_eq' (fun x _ y _ z => statsStep_comm z x y) none
  refine ⟨fun k => ?_, key⟩
  have hk := key k
  cases h1 : lookupSummary (processFlowLogLines l1).summaries k <;>
    cases h2 : lookupSummary (processFlowLogLines l2).summaries k <;>
    rw [h1, h2] at hk <;> simp [statsOf] at hk ⊢

/-- C3 witness: swapping two concrete lines leaves the statistics of
their shared tuple key unchanged. -/
theorem claim_C3_witness :
    statsOf (lookupSummary (processFlowLogLines
        ["2 1 eni-1 10.0.0.5 10.0.0.9 443 51000 6 10 1500 1000000 1000060 ACCEPT OK",
         "2 1 eni-1 10.0.0.5 10.0.0.9 443 51000 6 5 500 1000060 1000120 REJECT OK"]).summaries
        "10.0.0.5:443->10.0.0.9:51000:6")
      = statsOf (lookupSummary (processFlowLogLines
        ["2 1 eni-1 10.0.0.5 10.0.0.9 443 51000 6 5 500 1000060 1000120 REJECT OK",
         "2 1 eni-1 10.0.0.5 10.0.0.9 443 51000 6 10 1500 1000000 1000060 ACCEPT OK"]).summaries
        "10.0.0.5:443->10.0.0.9:51000:6") :=
  (claim_C3 _ _ (List.Perm.swap
      "2 1 eni-1 10.0.0.5 10.0.0.9 443 51000 6 5 500 1000060 1000120 REJECT OK"
      "2 1 eni-1 10.0.0.5 10.0.0.9 443 51000 6 10 1500 1000000 1000060 ACCEPT OK" [])).2
    "10.0.0.5:443->10.0.0.9:51000:6"

/-- C4: the two-line end-to-end scenario aggregates to exactly one
summary with totalBytes 2000, totalPackets 15, connectionCount 2,
acceptedCount 1, rejectedCount 1, firstSeen 1000000, lastSeen 1000120. -/
theorem claim_C4 :
    (processFlowLogLines
      ["2 123456789 eni-1 10.0.0.5 10.0.0.9 443 51000 6 10 1500 1000000 1000060 ACCEPT OK",
       "2 123456789 eni-1 10.0.0.5 10.0.0.9 443 51000 6 5 500 1000060 1000120 REJECT OK"]).summaries
    = [("10.0.0.5:443->10.0.0.9:51000:6",
        { sourceIp := "10.0.0.5", destinationIp := "10.0.0.9", sourcePort := 443,
          destinationPort := 51000, protocol := "6", totalBytes := 2000, totalPackets := 15,
          connectionCount := 2, acceptedCount := 1, rejectedCount := 1,
          firstSeen := 1000000, lastSeen := 1000120 })] := by
  decide

/-- C5: a parseable line (non-empty, no header, at least 13 fields) with
a dash in srcaddr/dstaddr/windowstart/windowend/action or status NODATA
only increments the skipped count and touches no summary; concretely,
10 well-formed lines of which 3 are NODATA yield skip-count 3 and the
same summaries as the remaining 7 lines alone. -/
theorem claim_C5 :
    (∀ (st : AggState) (line : String),
      (pyStrip line).isEmpty = false →
      pyStartsWith line "version" = false →
      13 ≤ (pySplit ' ' line).length →
      dashNodata (pySplit ' ' line) →
      lineStep st line = { st with skippedLines := st.skippedLines + 1 })
    ∧ (processFlowLogLines
        ["2 1 eni-1 10.0.0.1 10.0.0.2 100 200 6 1 10 1000 1010 ACCEPT OK",
         "2 1 eni-2 - - - - - - - 1000 1010 - NODATA",
         "2 1 eni-1 10.0.0.1 10.0.0.2 100 200 6 2 20 1005 1020 REJECT OK",
         "2 1 eni-1 10.0.0.3 10.0.0.4 300 400 17 3 30 1000 1001 ACCEPT OK",
         "2 1 eni-3 - - - - - - - 1100 1110 - NODATA",
         "2 1 eni-1 10.0.0.3 10.0.0.4 300 400 17 4 40 999 1050 ACCEPT OK",
         "2 1 eni-1 10.0.0.5 10.0.0.6 80 81 6 5 50 2000 2010 SKIP OK",
         "2 1 eni-1 10.0.0.1 10.0.0.2 100 200 6 6 60 1100 1110 ACCEPT OK",
         "2 1 eni-4 - - - - - - - 1200 1210 - NODATA",
         "2 1 eni-1 10.0.0.7 10.0.0.8 1 2 6 7 70 3000 3001 REJECT OK"]).skippedLines = 3
    ∧ (processFlowLogLines
        ["2 1 eni-1 10.0.0.1 10.0.0.2 100 200 6 1 10 1000 1010 ACCEPT OK",
         "2 1 eni-2 - - - - - - - 1000 1010 - NODATA",
         "2 1 eni-1 10.0.0.1 10.0.0.2 100 200 6 2 20 1005 1020 REJECT OK",
         "2 1 eni-1 10.0.0.3 10.0.0.4 300 400 17 3 30 1000 1001 ACCEPT OK",
         "2 1 eni-3 - - - - - - - 1100 1110 - NODATA",
         "2 1 eni-1 10.0.0.3 10.0.0.4 300 400 17 4 40 999 1050 ACCEPT OK",
         "2 1 eni-1 10.0.0.5 10.0.0.6 80 81 6 5 50 2000 2010 SKIP OK",
         "2 1 eni-1 10.0.0.1 10.0.0.2 100 200 6 6 60 1100 1110 ACCEPT OK",
         "2 1 eni-4 - - - - - - - 1200 1210 - NODATA",
         "2 1 eni-1 10.0.0.7 10.0.0.8 1 2 6 7 70 3000 3001 REJECT OK"]).summaries
      = (processFlowLogLines
        ["2 1 eni-1 10.0.0.1 10.0.0.2 100 200 6 1 10 1000 1010 ACCEPT OK",
         "2 1 eni-1 10.0.0.1 10.0.0.2 100 200 6 2 20 1005 1020 REJECT OK",
         "2 1 eni-1 10.0.0.3 10.0.0.4 300 400 17 3 30 1000 1001 ACCEPT OK",
         "2 1 eni-1 10.0.0.3 10.0.0.4 300 400 17 4 40 999 1050 ACCEPT OK",
         "2 1 eni-1 10.0.0.5 10.0.0.6 80 81 6 5 50 2000 2010 SKIP OK",
         "2 1 eni-1 10.0.0.1 10.0.0.2 100 200 6 6 60 1100 1110 ACCEPT OK",
         "2 1 eni-1 10.0.0.7 10.0.0.8 1 2 6 7 70 3000 3001 REJECT OK"]).summaries := by
  refine ⟨?_, by decide, by decide⟩
  intro st line h1 h2 h3 h4
  have hc : classifyLine line = .counted := by
    rw [classify_counted_iff line h1 h2]
    exact Or.inr (Or.inl ⟨h3, h4⟩)
  unfold lineStep
  rw [hc]

/-- C5 witness: a concrete NODATA line increments the skip count. -/
theorem claim_C5_witness :
    lineStep initState "2 1 eni-2 - - - - - - - 1000 1010 - NODATA"
      = { initState with skippedLines := initState.skippedLines + 1 } :=
  claim_C5.1 initState _ (by decide) (by decide) (by decide)
    (by unfold dashNodata; decide)

/-- C9: in every produced summary acceptedCount + rejectedCount is at
most connectionCount, with equality exactly when every contributing
record's action was ACCEPT or REJECT; a record with any other action
increments connectionCount (and totals) but neither counter. -/
theorem claim_C9 :
    (∀ (lines : List String) (k : String) (s : Summary),
      lookupSummary (processFlowLogLines lines).summaries k = some s →
      s.acceptedCount + s.rejectedCount ≤ s.connectionCount
      ∧ (s.acceptedCount + s.rejectedCount = s.connectionCount ↔
          ∀ r ∈ contribs lines k, r.action = "ACCEPT" ∨ r.action = "REJECT"))
    ∧ (∀ (s : Summary) (r : FlowRecord), r.action ≠ "ACCEPT" → r.action ≠ "REJECT" →
        (accumulate s r).connectionCount = s.connectionCount + 1
        ∧ (accumulate s r).totalBytes = s.totalBytes + r.bytes
        ∧ (accumulate s r).totalPackets = s.totalPackets + r.packets
        ∧ (accumulate s r).acceptedCount = s.acceptedCount
        ∧ (accumulate s r).rejectedCount = s.rejectedCount) := by
  constructor
  · intro lines k s hs
    rw [lookup_process] at hs
    obtain ⟨hconn, hacc, hrej⟩ := foldl_accum_counts_none (contribs lines k) s hs
    obtain ⟨hle, hiff⟩ := countP_actions (contribs lines k)
    constructor
    · omega
    · constructor
      · intro h
        exact hiff.mp (by omega)
      · intro h
        have := hiff.mpr h
        omega
  · intro s r hA hR
    exact ⟨rfl, rfl, rfl, by simp [accumulate, hA], by simp [accumulate, hR]⟩

/-- C9 witness: concrete instance on a one-line file with action SKIP. -/
theorem claim_C9_witness :
    ((2 : Int) + 0 ≤ 2
      ∧ ((2 : Int) + 0 = 2 ↔
        ∀ r ∈ contribs
          ["2 1 eni-1 10.0.0.5 10.0.0.9 443 51000 6 10 1500 1000000 1000060 ACCEPT OK",
           "2 1 eni-1 10.0.0.5 10.0.0.9 443 51000 6 5 500 1000060 1000120 REJECT OK"]
          "10.0.0.5:443->10.0.0.9:51000:6",
          r.action = "ACCEPT" ∨ r.action = "REJECT")) := by
  have h := claim_C9.1
    ["2 1 eni-1 10.0.0.5 10.0.0.9 443 51000 6 10 1500 1000000 1000060 ACCEPT OK",
     "2 1 eni-1 10.0.0.5 10.0.0.9 443 51000 6 5 500 1000060 1000120 REJECT OK"]
    "10.0.0.5:443->10.0.0.9:51000:6"
    { sourceIp := "10.0.0.5", destinationIp := "10.0.0.9", sourcePort := 443,
      destinationPort := 51000, protocol := "6", totalBytes := 2000, totalPackets := 15,
      connectionCount := 2, acceptedCount := 1, rejectedCount := 1,
      firstSeen := 1000000, lastSeen := 1000120 }
    (by decide)
  simpa using h

/-- C10: empty and version-header lines are skipped silently (state
unchanged, no count); the skipped-lines counter is incremented exactly
when the line has fewer than 13 space-separated fields, is discarded by
the dash/NODATA rule, or fails a numeric conversion. -/
theorem claim_C10 (st : AggState) (line : String) :
    ((pyStrip line).isEmpty = true ∨ pyStartsWith line "version" = true →
        lineStep st line = st)
    ∧ ((lineStep st line).skippedLines = st.skippedLines + 1 ↔
        ((pyStrip line).isEmpty = false ∧ pyStartsWith line "version" = false ∧
          countedSkip line)) := by
  constructor
  · intro h
    unfold lineStep
    rw [classify_silent line h]
  · rw [classify_skip_state]
    by_cases h1 : (pyStrip line).isEmpty
    · rw [classify_silent line (Or.inl h1)]
      simp [h1]
    · by_cases h2 : pyStartsWith line "version"
      · rw [classify_silent line (Or.inr h2)]
        simp [h2]
      · have h1f : (pyStrip line).isEmpty = false := by
          simpa using h1
        have h2f : pyStartsWith line "version" = false := by
          simpa using h2
        rw [← classify_counted_iff line h1f h2f]
        cases hcl : classifyLine line <;> simp [hcl, h1f, h2f]

/-- C10 witness: concrete instances — a header line leaves the state
unchanged, and a 12-field line is counted as skipped. -/
theorem claim_C10_witness :
    lineStep initState "version account-id interface-id" = initState
    ∧ (lineStep initState "2 1 eni-1 10.0.0.1 10.0.0.2 100 200 6 1 10 1000 1010").skippedLines
        = initState.skippedLines + 1 :=
  ⟨(claim_C10 initState "version account-id interface-id").1 (Or.inr (by decide)),
   (claim_C10 initState "2 1 eni-1 10.0.0.1 10.0.0.2 100 200 6 1 10 1000 1010").2.mpr
     ⟨by decide, by decide, by unfold countedSkip dashNodata numericFail; decide⟩⟩

end FlowLog

namespace Classifier

theorem firstRule_mem : ∀ (rs : List (String → Option (String × Option String))) (d : String)
    (x : String × Option String), firstRule rs d = some x → ∃ r ∈ rs, r d = some x := by
  intro rs
  induction rs with
  | nil => intro d x h; cases h
  | cons r rest ih =>
    intro d x h
    unfold firstRule at h
    cases hr : r d with
    | some y =>
      rw [hr] at h
      injection h with h
      exact ⟨r, List.mem_cons_self _ _, by rw [hr, h]⟩
    | none =>
      rw [hr] at h
      obtain ⟨r', hmem, hr'⟩ := ih d x h
      exact ⟨r', List.mem_cons_of_mem _ hmem, hr'⟩

theorem rules_ty_ne : ∀ r ∈ desc_rules, ∀ (d t : String) (i : Option String),
    r d = some (t, i) → t ≠ "" := by
  intro r hr
  fin_cases hr <;> (
    intro d t i h
    simp only [rule_elb, rule_classic_elb, rule_lambda, rule_nat_gateway, rule_vpc_endpoint, rule_route53_resolver, rule_ecs_arn, rule_ecs, rule_awsvpc, rule_rds, rule_elasticache, rule_redshift, rule_efs, rule_fsx, rule_msk, rule_kinesis_firehose, rule_mq, rule_emr, rule_glue, rule_sagemaker, rule_workspaces, rule_appstream, rule_directory_service, rule_transfer, rule_mwaa, rule_global_accelerator, rule_network_firewall, rule_api_gateway, rule_codebuild, rule_cloud9, rule_neptune, rule_documentdb, rule_memorydb, rule_opensearch, rule_elasticsearch, rule_backup, rule_datasync, rule_storage_gateway, rule_connect, rule_apprunner, rule_batch, rule_eks, rule_transit_gateway, rule_quicksight, rule_athena, rule_lake_formation, rule_greengrass, rule_verified_access] at h
    repeat' split at h)
  all_goals (try (injection h with h1; injection h1 with h1 h2; subst h1; decide))
  all_goals (cases h)
end Classifier

namespace Classifier

theorem parse_ty_ne (d : String) (t : String) (i : Option String)
    (h : parse_resource_from_description d = (some t, i)) : t ≠ "" := by
  unfold parse_resource_from_description at h
  split at h
  · exact absurd (congrArg Prod.fst h) (by simp)
  · split at h
    · next x ht hi heq =>
      obtain ⟨r, hmem, hr⟩ := firstRule_mem desc_rules d (ht, hi) heq
      have hfst := congrArg Prod.fst h
      simp only at hfst
      injection hfst with he
      subst he
      exact rules_ty_ne r hmem d ht hi hr
    · exact absurd (congrArg Prod.fst h) (by simp)

theorem dictGet_mem : ∀ (m : List (String × String)) (k v : String),
    dictGet m k = some v → (k, v) ∈ m := by
  intro m
  induction m with
  | nil => intro k v h; cases h
  | cons p rest ih =>
    intro k v h
    unfold dictGet at h
    split at h
    · next heq =>
      injection h with h
      subst h
      obtain ⟨k', v'⟩ := p
      simp only at heq
      subst heq
      exact List.mem_cons_self _ _
    · exact List.mem_cons_of_mem _ (ih k v h)

theorem type_mapping_vals : ∀ p ∈ type_mapping, p.2 ≠ "" := by decide

theorem accounts_vals : ∀ p ∈ aws_service_accounts, p.2 ≠ "" := by decide

theorem service_mapping_vals : ∀ p ∈ service_mapping, p.2 ≠ "" := by decide

theorem applyInterfaceType_ne (it rt : String) (hit : it ≠ "") (hrt : rt ≠ "") :
    applyInterfaceType it rt ≠ "" := by
  unfold applyInterfaceType
  split
  · unfold dictGetD
    cases hg : dictGet type_mapping it with
    | none => simpa using hit
    | some v =>
      have := type_mapping_vals _ (dictGet_mem _ _ _ hg)
      simpa using this
  · exact hrt

theorem applyTagMarkers_ne (tags : List (String × String)) (rt rid : String)
    (hrt : rt ≠ "") : (applyTagMarkers tags rt rid).1 ≠ "" := by
  unfold applyTagMarkers
  split
  · simp
  · exact hrt

theorem refine_ne (rt1 v : String) (h1 : rt1 ≠ "") (hv : v ≠ "") :
    (if rt1 = "unknown" then v else rt1) ≠ "" := by
  split
  · exact hv
  · exact h1

theorem applyRequesterId_ne (req rt : String) (hrt : rt ≠ "") :
    applyRequesterId req rt ≠ "" := by
  unfold applyRequesterId
  split
  · have hrt1 : (if strContains (pyLower req) "grafana" ∧ rt = "unknown" then "grafana"
        else rt) ≠ "" := by
      split
      · decide
      · exact hrt
    cases hg : dictGet aws_service_accounts req with
    | some svc =>
      have hv := accounts_vals _ (dictGet_mem _ _ _ hg)
      simp only [hg]
      exact refine_ne _ _ hrt1 (by simpa using hv)
    | none =>
      simp only [hg]
      cases hf : service_mapping.find? (fun p => pyStartsWith req p.1) with
      | some p =>
        have hv := service_mapping_vals _ (List.mem_of_find?_eq_some hf)
        simp only [hf]
        exact refine_ne _ _ hrt1 hv
      | none =>
        simp only [hf]
        exact hrt1
  · exact hrt

end Classifier

namespace Classifier

/-- C6 (amended): for every interface record whose provider
interface-type field, when present, is non-empty, classify returns a
non-empty resource_type ("unknown" when no heuristic matched), and with
no signal at all the descriptor is exactly the default with resource_id
"N/A"; the function is total by construction. -/
theorem claim_C6 :
    (∀ (lookup : Lookup) (eni : Eni), eni.interfaceType.getD "interface" ≠ "" →
      (identify_resource lookup eni).resource_type ≠ "")
    ∧ (∀ lookup : Lookup, identify_resource lookup blankEni
        = { resource_type := "unknown", resource_id := "N/A", resource_name := "N/A",
            resource_tags := [], requester_id := "", requester_managed := false }) := by
  constructor
  · intro lookup eni hit
    unfold identify_resource
    dsimp only []
    split
    · simp
    · split
      · simp
      · split
        · next hfall =>
          split
          · next parsed_type parsed_id heq =>
            repeat' split
            all_goals ((try dsimp only); exact parse_ty_ne _ _ _ heq)
          · next heq =>
            try dsimp only
            exact applyRequesterId_ne _ _ (applyTagMarkers_ne _ _ _
              (applyInterfaceType_ne _ _ hit (by decide)))
        · next hfall =>
          try dsimp only
          split
          · next parsed_type parsed_id heq =>
            repeat' split
            all_goals ((try dsimp only); exact parse_ty_ne _ _ _ heq)
          · next heq =>
            try dsimp only
            exact applyRequesterId_ne _ _ (applyTagMarkers_ne _ _ _
              (applyInterfaceType_ne _ _ hit (by decide)))
  · intro lookup
    rfl

end Classifier

namespace Classifier

/-- C6 witness: an interface whose only signal is an RDS service
requester id gets a non-empty resource type. -/
theorem claim_C6_witness :
    (identify_resource noLookup
      { blankEni with requesterId := some "amazon-rds-xyz" }).resource_type ≠ "" :=
  claim_C6.1 noLookup _ (by decide)

/-- C6 counterexample: an interface whose provider interface-type field
is present but empty yields an empty resource_type (the mapping default
is the interface type itself, and the empty string is not "unknown", so
no later heuristic repairs it). -/
theorem claim_C6_counterexample :
    (identify_resource noLookup { blankEni with interfaceType := some "" }).resource_type
      = "" := by
  decide

/-- C1 (amended): for every interface whose description does not start
with the pod marker "aws-K8S-", a non-empty attached instance id forces
resource_type "ec2" and resource_id equal to that instance id, for every
lookup collaborator and regardless of the rest of the description. -/
theorem claim_C1 (lookup : Lookup) (eni : Eni)
    (hpod : pyStartsWith (eni.description.getD "") "aws-K8S-" = false)
    (hatt : pyTruthy eni.attachmentInstanceId = true) :
    (identify_resource lookup eni).resource_type = "ec2"
    ∧ (identify_resource lookup eni).resource_id = eni.attachmentInstanceId.getD "" := by
  unfold identify_resource
  simp only [hpod, hatt, Bool.false_eq_true, if_false, if_true]
  exact ⟨trivial, trivial⟩

/-- C1 counterexample: an interface with a non-empty attached instance
id whose description carries the pod marker is classified "eks-pod",
not "ec2" — the pod rule fires before the attachment rule. -/
theorem claim_C1_counterexample :
    pyTruthy ({ blankEni with
        attachmentInstanceId := some "i-0123"
        description := some "aws-K8S-eni42" } : Eni).attachmentInstanceId = true
    ∧ (identify_resource noLookup { blankEni with
        attachmentInstanceId := some "i-0123"
        description := some "aws-K8S-eni42" }).resource_type = "eks-pod"
    ∧ ¬ (identify_resource noLookup { blankEni with
        attachmentInstanceId := some "i-0123"
        description := some "aws-K8S-eni42" }).resource_type = "ec2" := by
  refine ⟨by decide, by decide, by decide⟩

/-- C1 witness: with an attached instance and a description that would
otherwise classify as elb, the attachment rule wins. -/
theorem claim_C1_witness :
    (identify_resource noLookup { blankEni with
        attachmentInstanceId := some "i-42"
        description := some "ELB app/my-alb/50dc6c495c0c9188" }).resource_type = "ec2"
    ∧ (identify_resource noLookup { blankEni with
        attachmentInstanceId := some "i-42"
        description := some "ELB app/my-alb/50dc6c495c0c9188" }).resource_id = "i-42" :=
  claim_C1 noLookup _ (by decide) (by decide)

/-- C8: when neither the pod marker nor the attachment rule fires and
the description rule table yields a type, that parsed type is the final
resource_type, overwriting whatever the interface-type, tag-marker or
requester-id rules produced. -/
theorem claim_C8 (lookup : Lookup) (eni : Eni) (t : String) (oid : Option String)
    (hpod : pyStartsWith (eni.description.getD "") "aws-K8S-" = false)
    (hatt : pyTruthy eni.attachmentInstanceId = false)
    (hparse : parse_resource_from_description (eni.description.getD "") = (some t, oid)) :
    (identify_resource lookup eni).resource_type = t := by
  unfold identify_resource
  simp only [hpod, hatt, Bool.false_eq_true, if_false, hparse]
  repeat' split
  all_goals rfl

/-- C8 witness: an interface whose interface-type says nat-gateway but
whose description says glue is classified glue. -/
theorem claim_C8_witness :
    (identify_resource noLookup { blankEni with
        interfaceType := some "nat_gateway"
        description := some "glue" }).resource_type = "glue" :=
  claim_C8 noLookup _ "glue" none (by decide) (by decide) (by decide)

end Classifier

namespace Classifier

theorem lookupGroup_append (m : List (String × List Subnet)) (k0 k : String) (s : Subnet) :
    lookupGroup (appendGroup m k0 s) k
      = if k0 = k then some ((lookupGroup m k).getD [] ++ [s]) else lookupGroup m k := by
  induction m with
  | nil =>
    by_cases h : k0 = k <;> simp [appendGroup, lookupGroup, h]
  | cons p rest ih =>
    obtain ⟨k1, l1⟩ := p
    unfold appendGroup
    by_cases h1 : k1 = k0
    · subst h1
      by_cases h : k1 = k
      · subst h
        simp [lookupGroup]
      · simp [lookupGroup, h]
    · simp only [if_neg h1]
      by_cases h : k1 = k
      · subst h
        have hk : ¬ k0 = k1 := fun hc => h1 hc.symm
        simp [lookupGroup, hk, ih]
      · simp [lookupGroup, h, ih]

theorem lookupGroup_fold (subnets : List Subnet) :
    ∀ (m : List (String × List Subnet)) (k : String),
      lookupGroup (subnets.foldl (fun m s => appendGroup m s.vpcId s) m) k
        = match lookupGroup m k with
          | some l => some (l ++ subnets.filter (fun s => decide (s.vpcId = k)))
          | none =>
            if subnets.filter (fun s => decide (s.vpcId = k)) = [] then none
            else some (subnets.filter (fun s => decide (s.vpcId = k))) := by
  induction subnets with
  | nil =>
    intro m k
    cases h : lookupGroup m k <;> simp [h]
  | cons s rest ih =>
    intro m k
    show lookupGroup (rest.foldl (fun m s => appendGroup m s.vpcId s) (appendGroup m s.vpcId s)) k = _
    rw [ih (appendGroup m s.vpcId s) k]
    rw [lookupGroup_append]
    by_cases hk : s.vpcId = k
    · rw [if_pos hk]
      cases h : lookupGroup m k with
      | some l =>
        simp only [h, Option.getD_some, List.filter_cons, hk]
        simp [List.append_assoc]
      | none =>
        simp only [h, Option.getD_none, List.nil_append, List.filter_cons, hk]
        simp
    · rw [if_neg hk]
      cases h : lookupGroup m k with
      | some l =>
        simp only [h, List.filter_cons]
        simp [hk]
      | none =>
        simp only [h, List.filter_cons]
        simp [hk]

end Classifier

namespace Classifier

theorem lookupGroup_none_iff (m : List (String × List Subnet)) (k : String) :
    lookupGroup m k = none ↔ k ∉ m.map Prod.fst := by
  induction m with
  | nil => simp [lookupGroup]
  | cons p rest ih =>
    obtain ⟨k1, l1⟩ := p
    by_cases h : k1 = k
    · subst h
      simp [lookupGroup]
    · unfold lookupGroup
      rw [if_neg h, ih]
      simp only [List.map_cons, List.mem_cons]
      constructor
      · intro hn hc
        rcases hc with hc | hc
        · exact h hc.symm
        · exact hn hc
      · intro hn hc
        exact hn (Or.inr hc)

theorem appendGroup_keys (m : List (String × List Subnet)) (k : String) (s : Subnet) :
    (appendGroup m k s).map Prod.fst
      = if lookupGroup m k = none then m.map Prod.fst ++ [k] else m.map Prod.fst := by
  induction m with
  | nil => simp [appendGroup, lookupGroup]
  | cons p rest ih =>
    obtain ⟨k1, l1⟩ := p
    by_cases h : k1 = k
    · subst h
      simp [appendGroup, lookupGroup]
    · simp only [appendGroup, if_neg h, List.map_cons, lookupGroup, ih]
      by_cases h2 : lookupGroup rest k = none <;> simp [h2, h]

theorem subnetsByVpc_keys_nodup (subnets : List Subnet) :
    ((subnetsByVpc subnets).map Prod.fst).Nodup := by
  suffices h : ∀ m : List (String × List Subnet), (m.map Prod.fst).Nodup →
      ((subnets.foldl (fun m s => appendGroup m s.vpcId s) m).map Prod.fst).Nodup by
    exact h [] (by simp)
  induction subnets with
  | nil => intro m hm; exact hm
  | cons s rest ih =>
    intro m hm
    refine ih (appendGroup m s.vpcId s) ?_
    rw [appendGroup_keys]
    split
    · next hnone =>
      rw [List.nodup_append]
      refine ⟨hm, List.nodup_singleton _, ?_⟩
      intro a ha hb
      simp only [List.mem_singleton] at hb
      subst hb
      exact (lookupGroup_none_iff m _).mp hnone ha
    · exact hm

theorem filter_key_eq (gs : List (String × List Subnet)) (k : String)
    (hnd : (gs.map Prod.fst).Nodup) :
    gs.filter (fun g => decide (g.1 = k))
      = match lookupGroup gs k with
        | some l => [(k, l)]
        | none => [] := by
  induction gs with
  | nil => simp [lookupGroup]
  | cons p rest ih =>
    obtain ⟨k1, l1⟩ := p
    simp only [List.map_cons, List.nodup_cons] at hnd
    by_cases h : k1 = k
    · subst h
      have hrest : lookupGroup rest k1 = none :=
        (lookupGroup_none_iff rest k1).mpr hnd.1
      have hfil : rest.filter (fun g => decide (g.1 = k1)) = [] := by
        rw [ih hnd.2, hrest]
      simp [List.filter_cons, lookupGroup, hfil]
    · simp only [List.filter_cons, lookupGroup]
      simp only [if_neg h]
      have : (decide (k1 = k)) = false := by simpa using h
      simp [this, ih hnd.2]

end Classifier

namespace Classifier

theorem string_append_left_cancel {s a b : String} (h : s ++ a = s ++ b) : a = b := by
  have hd := congrArg String.data h
  simp only [String.data_append] at hd
  exact String.ext (List.append_cancel_left hd)

/-- C7: for every container with at least one subnet, synthesis yields
exactly one DNS-resolver pseudo-interface, with id `resolver-{vpc}`,
type "dns", and private IPs exactly the network address + 2 of each of
the container's subnets; concretely, subnets 10.0.1.0/24 and
10.0.2.0/24 give exactly the IPs 10.0.1.2 and 10.0.2.2. -/
theorem claim_C7 :
    (∀ (account_id : String) (subnets : List Subnet) (igws : List Igw) (vpc : String),
      subnets.filter (fun s => decide (s.vpcId = vpc)) ≠ [] →
      (create_virtual_appliances account_id subnets igws).filter
          (fun v => decide (v.typeTag = "dns" ∧ v.id = "resolver-" ++ vpc))
        = [dnsEniOf account_id vpc (subnets.filter (fun s => decide (s.vpcId = vpc)))]
      ∧ (dnsEniOf account_id vpc
            (subnets.filter (fun s => decide (s.vpcId = vpc)))).private_ip_addresses
        = (subnets.filter (fun s => decide (s.vpcId = vpc))).map
            (fun s => networkAddressPlus s.cidrBlock 2))
    ∧ (create_virtual_appliances "123456789012"
        [⟨"vpc-1", "10.0.1.0/24", "subnet-a", [], "az-1", none⟩,
         ⟨"vpc-1", "10.0.2.0/24", "subnet-b", [], "az-1", none⟩] []).map
        (fun v => (v.id, v.typeTag, v.private_ip_addresses))
      = [("resolver-vpc-1", "dns", ["10.0.1.2", "10.0.2.2"])] := by
  constructor
  · intro account_id subnets igws vpc hne
    unfold create_virtual_appliances
    dsimp only
    rw [List.filter_append]
    have higw : ((igws.map (fun igw =>
        igw.attachments.filterMap (fun att =>
          if pyTruthy att.vpcId ∧ att.state = some "available" then
            some (igwEniOf account_id igw (att.vpcId.getD "")
              ((lookupGroup (subnetsByVpc subnets) (att.vpcId.getD "")).getD []))
          else none))).flatten).filter
        (fun v => decide (v.typeTag = "dns" ∧ v.id = "resolver-" ++ vpc)) = [] := by
      rw [List.filter_eq_nil_iff]
      intro e he
      rw [List.mem_flatten] at he
      obtain ⟨l, hl, hel⟩ := he
      rw [List.mem_map] at hl
      obtain ⟨igw, _, rfl⟩ := hl
      rw [List.mem_filterMap] at hel
      obtain ⟨att, _, hatt⟩ := hel
      split at hatt
      · injection hatt with hatt
        subst hatt
        simp [igwEniOf]
      · cases hatt
    rw [higw, List.nil_append]
    rw [List.filter_map]
    have hcong : (subnetsByVpc subnets).filter
          ((fun v => decide (v.typeTag = "dns" ∧ v.id = "resolver-" ++ vpc))
            ∘ (fun p => dnsEniOf account_id p.1 p.2))
        = (subnetsByVpc subnets).filter (fun g => decide (g.1 = vpc)) := by
      apply List.filter_congr
      intro g _
      simp only [Function.comp]
      apply decide_eq_decide.mpr
      constructor
      · intro hp
        exact string_append_left_cancel hp.2
      · intro hp
        refine ⟨rfl, ?_⟩
        rw [hp]
        simp [dnsEniOf]
    rw [hcong, filter_key_eq _ _ (subnetsByVpc_keys_nodup subnets)]
    have hlook : lookupGroup (subnetsByVpc subnets) vpc
        = some (subnets.filter (fun s => decide (s.vpcId = vpc))) := by
      unfold subnetsByVpc
      rw [lookupGroup_fold subnets [] vpc]
      simp only [lookupGroup]
      rw [if_neg hne]
    rw [hlook]
    exact ⟨rfl, rfl⟩
  · decide

/-- C7 witness: the concrete two-subnet container instantiation. -/
theorem claim_C7_witness :
    (create_virtual_appliances "123456789012"
        [⟨"vpc-1", "10.0.1.0/24", "subnet-a", [], "az-1", none⟩,
         ⟨"vpc-1", "10.0.2.0/24", "subnet-b", [], "az-1", none⟩] []).filter
        (fun v => decide (v.typeTag = "dns" ∧ v.id = "resolver-" ++ "vpc-1"))
      = [dnsEniOf "123456789012" "vpc-1"
          (([⟨"vpc-1", "10.0.1.0/24", "subnet-a", [], "az-1", none⟩,
             ⟨"vpc-1", "10.0.2.0/24", "subnet-b", [], "az-1", none⟩] :
            List Subnet).filter (fun s => decide (s.vpcId = "vpc-1")))] :=
  (claim_C7.1 "123456789012"
    [⟨"vpc-1", "10.0.1.0/24", "subnet-a", [], "az-1", none⟩,
     ⟨"vpc-1", "10.0.2.0/24", "subnet-b", [], "az-1", none⟩] [] "vpc-1" (by decide)).1

end Classifier

end EagleEye
